import Mathlib

/-!
Shallow embedding of the Fontfeel font-analysis engine
(`src/font_validator.py`) and verification of the frozen claims.

Conventions of the embedding:
* Python floats are modelled by exact rationals (`ℚ`); font-table scalars by `ℤ`.
* A Python table access `font['X']` on a missing table raises `KeyError`; every
  analyzer wraps its body in `try/except`, so a raise at an unguarded access is
  modelled by jumping directly to the analyzer's except-branch record.  The
  `reason` string of such a record is modelled as the Python `str(e)` text.
* `math.sqrt` and the `acos`-based degree computation are irrational in
  general; they are modelled as parameters of the analysis (`NumModel`), so
  each theorem quantifies over every model of them, and concrete evaluations
  use `qNumModel`, whose square root is exact on perfect squares (the only
  inputs exercised by the concrete scenarios below).
* `dict` iteration order is Python insertion order and is preserved exactly;
  `list(set(...))` (order-unspecified dedup) is modelled by `List.dedup`,
  which preserves membership.
-/

namespace Fontfeel

/-- Numeric model for the two irrational primitives of the source:
`sqrt q` models `math.sqrt(q)` and `acosDeg c` models
`math.acos(c) * 180 / math.pi`. -/
structure NumModel where
  sqrt : ℚ → ℚ
  acosDeg : ℚ → ℚ

/-- Computable rational square root: exact whenever `num·den` is a perfect
square (true for every radicand exercised by the concrete scenarios),
`Nat.sqrt`-floor otherwise. -/
def ratSqrt (q : ℚ) : ℚ :=
  if q ≤ 0 then 0 else ((Nat.sqrt (q.num.toNat * q.den) : ℚ) / (q.den : ℚ))

/-- Linear stand-in for `acos` in degrees (never relevant to any theorem:
they all quantify over the model or avoid the angle path). -/
def qNumModel : NumModel :=
  { sqrt := ratSqrt, acosDeg := fun c => 90 * (1 - c) }

/-- Does `pat` occur at the head of the second list? -/
def charsMatchHere : List Char → List Char → Bool
  | [], _ => true
  | _ :: _, [] => false
  | c :: cs, d :: ds => c = d && charsMatchHere cs ds

/-- Does `pat` occur anywhere in the list? -/
def charsFound (pat : List Char) : List Char → Bool
  | [] => pat.isEmpty
  | d :: ds => charsMatchHere pat (d :: ds) || charsFound pat ds

/-- `needle in hay` for Python strings. -/
def strContains (hay needle : String) : Bool :=
  charsFound needle.toList hay.toList

/-- ASCII lower-casing of one character (Python `str.lower` on the ASCII
names this program handles). -/
def charLower (c : Char) : Char :=
  if 65 ≤ c.toNat ∧ c.toNat ≤ 90 then Char.ofNat (c.toNat + 32) else c

/-- ASCII lower-casing of a string. -/
def strToLower (s : String) : String := ⟨s.data.map charLower⟩

/-- Euclidean distance `((x1-x2)**2 + (y1-y2)**2)**0.5` under a numeric model. -/
def distQ (M : NumModel) (p c : ℚ × ℚ) : ℚ :=
  M.sqrt ((p.1 - c.1) ^ 2 + (p.2 - c.2) ^ 2)

/-- Minimum of a list of rationals (callers guard non-emptiness). -/
def listMin : List ℚ → ℚ
  | [] => 0
  | x :: xs => xs.foldl min x

/-- Maximum of a list of rationals (callers guard non-emptiness). -/
def listMax : List ℚ → ℚ
  | [] => 0
  | x :: xs => xs.foldl max x

/-- Ascending insertion, used to model Python's in-place `list.sort()`. -/
def insertAsc (x : ℚ) : List ℚ → List ℚ
  | [] => [x]
  | y :: ys => if x ≤ y then x :: y :: ys else y :: insertAsc x ys

/-- Ascending sort of rationals. -/
def sortAsc (l : List ℚ) : List ℚ := l.foldr insertAsc []

/-! ## Font data model (the fontTools `TTFont` slice the engine reads) -/

/-- OS/2 PANOSE bytes read by the engine; `bLetterForm` is behind `hasattr`. -/
structure Panose where
  bFamilyType : ℤ
  bSerifStyle : ℤ
  bLetterForm : Option ℤ
  deriving Repr, DecidableEq

/-- OS/2 table fields read by the engine; `none` models a missing attribute. -/
structure OS2 where
  usWeightClass : ℤ
  usWidthClass : ℤ
  panose : Option Panose
  sFamilyClass : Option ℤ
  sxHeight : Option ℤ
  sCapHeight : Option ℤ
  sTypoAscender : Option ℤ
  sTypoDescender : Option ℤ
  deriving Repr, DecidableEq

/-- `name` table access: `getName(1,3,1,1033)` (family) and
`getName(4,3,1,1033)` (full name). -/
structure NameTable where
  familyName : Option String
  fullName : Option String
  deriving Repr, DecidableEq

/-- `head` table. -/
structure HeadTable where
  unitsPerEm : ℤ
  deriving Repr, DecidableEq

/-- `hhea` table; ascent/descent are behind `hasattr`. -/
structure HheaTable where
  ascent : Option ℤ
  descent : Option ℤ
  deriving Repr, DecidableEq

/-- `post` table. -/
structure PostTable where
  isFixedPitch : Bool
  deriving Repr, DecidableEq

/-- A `glyf`-table glyph.  `coordinates`/`flags`/`endPtsOfContours` are
`Option` because composite glyphs lack them (`hasattr` checks in the source);
`bbox` models the `xMin/xMax/yMin/yMax` attributes as (xMin, xMax, yMin, yMax). -/
structure Glyph where
  numberOfContours : ℤ
  coordinates : Option (List (ℤ × ℤ))
  flags : Option (List ℕ)
  endPtsOfContours : Option (List ℕ)
  bbox : Option (ℤ × ℤ × ℤ × ℤ)
  deriving Repr, DecidableEq

/-- The CFF slice read: the first entry of `cff.fontNames`, when exposed. -/
structure CffTable where
  fontName : Option String
  deriving Repr, DecidableEq

/-- The loaded font.  For `cmap`, `none` models a missing `cmap` table
(`getBestCmap` raises), `some []` models a present table with no usable
entries (falsy result); the association list maps code points to glyph names.
`hmtx` maps glyph names to (advanceWidth, leftSideBearing). -/
structure Font where
  name : Option NameTable
  os2 : Option OS2
  head : Option HeadTable
  hhea : Option HheaTable
  post : Option PostTable
  cmap : Option (List (ℕ × String))
  glyf : Option (List (String × Glyph))
  cff : Option CffTable
  hmtx : Option (List (String × ℤ × ℤ))
  deriving Repr, DecidableEq

/-! ## Style classifier (`determine_font_style` and its glyph features) -/

/-- `has_serif_features`: 0–2 score from contour and point counts. -/
def has_serif_features (g : Glyph) : ℤ :=
  if g.numberOfContours > 1 then
    match g.coordinates with
    | some cs =>
      if cs.length > 0 then
        if cs.length > 20 then 2 else if cs.length > 12 then 1 else 0
      else 0
    | none => 0
  else 0

/-- `is_asymmetric`: left/right point-count imbalance ≥ 1.5×. -/
def is_asymmetric (g : Glyph) : Bool :=
  match g.coordinates with
  | some cs =>
    if cs.length > 0 then
      let xs := cs.map (fun c => (c.1 : ℚ))
      let minx := listMin xs
      let maxx := listMax xs
      let mid := (minx + maxx) / 2
      let leftPts : ℚ := ((xs.filter (fun x => x < mid)).length : ℚ)
      let rightPts : ℚ := ((xs.filter (fun x => x > mid)).length : ℚ)
      leftPts > rightPts * 1.5 || rightPts > leftPts * 1.5
    else false
  | none => false

/-- `has_script_features`: 0–2 score for flowing single-contour glyphs. -/
def has_script_features (g : Glyph) : ℤ :=
  match g.coordinates with
  | some cs =>
    if cs.length > 0 then
      if g.numberOfContours = 1 ∧ cs.length > 20 then 2
      else if is_asymmetric g ∧ g.numberOfContours ≤ 2 then 1
      else 0
    else 0
  | none => 0

/-- `has_decorative_features`: 0–2 score for very complex glyphs. -/
def has_decorative_features (g : Glyph) : ℤ :=
  if g.numberOfContours > 3 then
    match g.coordinates with
    | some cs =>
      if cs.length > 0 then
        if cs.length > 30 then 2 else if cs.length > 20 then 1 else 0
      else 0
    | none => 0
  else 0

/-- The glyph-scoring decision of `determine_font_style` (rule 4),
lines 93–101 of the source: an ordered `if/elif` chain. -/
def styleScoresDecision (serifScore scriptScore decorativeScore : ℤ) : String :=
  if scriptScore ≥ 3 ∧ scriptScore > serifScore ∧ scriptScore > decorativeScore then
    "script"
  else if decorativeScore ≥ 3 ∧ decorativeScore > serifScore then "decorative"
  else if serifScore ≥ 2 ∧ serifScore > scriptScore then "serif"
  else "sans-serif"

/-- Family-name keyword matching (rule 1); `none` = no keyword fired. -/
def nameKeywordStyle (family_name : String) : Option String :=
  if strContains family_name "roboto" ||
      (strContains family_name "sans" && !strContains family_name "serif") then
    some "sans-serif"
  else if strContains family_name "serif" && !strContains family_name "sans" then
    some "serif"
  else if ["script", "handwriting", "cursive", "brush", "pacifico",
      "dancing"].any (fun t => strContains family_name t) then
    some "script"
  else if ["deco", "display", "ornament", "fancy", "elite",
      "special"].any (fun t => strContains family_name t) then
    some "decorative"
  else none

/-- PANOSE lookup (rule 2); `none` = no band fired or no PANOSE data. -/
def panoseStyle (os2t : Option OS2) : Option String :=
  match os2t with
  | some o =>
    match o.panose with
    | some p =>
      if p.bFamilyType = 2 then
        if p.bSerifStyle = 11 ∨ p.bSerifStyle = 0 then some "sans-serif"
        else if p.bSerifStyle > 1 ∧ p.bSerifStyle < 15 then some "serif"
        else none
      else if p.bFamilyType = 3 then some "script"
      else if p.bFamilyType = 4 then some "decorative"
      else none
    | none => none
  | none => none

/-- IBM family-class decode used in the CFF fallback path. -/
def ibmClassStyle (os2t : Option OS2) : String :=
  match os2t with
  | some o =>
    match o.sFamilyClass with
    | some fc =>
      let class_id := Int.fdiv fc 256
      if class_id = 1 ∨ class_id = 2 then "serif"
      else if class_id = 3 ∨ class_id = 4 then "serif"
      else if class_id = 5 then "serif"
      else if class_id = 8 then "sans-serif"
      else if class_id = 9 then "decorative"
      else if class_id = 10 then "script"
      else "sans-serif"
    | none => "sans-serif"
  | none => "sans-serif"

/-- CFF-name keyword matching plus IBM-class fallback (rule 5). -/
def cffStyleFromMetadata (font : Font) : String :=
  let byName : Option String :=
    match font.cff with
    | some c =>
      match c.fontName with
      | some n0 =>
        let n := strToLower n0
        if strContains n "serif" && !strContains n "sans" then some "serif"
        else if strContains n "sans" then some "sans-serif"
        else if ["script", "brush", "hand"].any (fun t => strContains n t) then
          some "script"
        else if ["deco", "display", "ornament"].any (fun t => strContains n t) then
          some "decorative"
        else none
      | none => none
    | none => none
  match byName with
  | some s => s
  | none => ibmClassStyle font.os2

/-- `determine_font_style`: ordered fallback over name keywords, PANOSE,
fixed pitch, glyph scoring, CFF metadata; `unknown` on any raised access. -/
def determine_font_style (font : Font) : String :=
  match font.name with
  | none => "unknown"
  | some nm =>
    match nm.familyName.bind (fun s => nameKeywordStyle (strToLower s)) with
    | some s => s
    | none =>
      match panoseStyle font.os2 with
      | some s => s
      | none =>
        match font.post with
        | none => "unknown"
        | some post =>
          if post.isFixedPitch then "monospace"
          else
            match font.cmap with
            | none => "unknown"
            | some cmap =>
              if cmap = [] then "unknown"
              else
                -- code points of the probe characters I, a, o, g, e
                let key_unicodes : List ℕ := [73, 97, 111, 103, 101]
                let glyph_names := key_unicodes.filterMap
                  (fun u => List.lookup u cmap)
                if glyph_names = [] then "unknown"
                else
                  match font.glyf with
                  | some glyfT =>
                    let scores := glyph_names.foldl
                      (fun (acc : ℤ × ℤ × ℤ) gn =>
                        if gn = "" then acc
                        else
                          match List.lookup gn glyfT with
                          | none => acc
                          | some g =>
                            if g.numberOfContours ≤ 0 then acc
                            else
                              (acc.1 + has_serif_features g,
                                acc.2.1 + has_script_features g,
                                acc.2.2 + has_decorative_features g))
                      (0, 0, 0)
                    styleScoresDecision scores.1 scores.2.1 scores.2.2
                  | none =>
                    if font.cff.isSome then cffStyleFromMetadata font
                    else "sans-serif"

/-! ## Stroke width estimator -/

/-- `classify_weight_by_normalized_stroke`: 7 weight bands over the
em-normalized stroke width. -/
def classify_weight_by_normalized_stroke (normalized_stroke_width : ℚ) : String :=
  if normalized_stroke_width < 0.05 then "thin"
  else if normalized_stroke_width < 0.07 then "light"
  else if normalized_stroke_width < 0.09 then "regular"
  else if normalized_stroke_width < 0.12 then "medium"
  else if normalized_stroke_width < 0.15 then "bold"
  else if normalized_stroke_width < 0.18 then "extra bold"
  else "black"

/-- `classify_weight_by_value`: 9 bands over the OS/2 `usWeightClass`. -/
def classify_weight_by_value (weight_value : ℤ) : String :=
  if weight_value ≤ 150 then "thin"
  else if weight_value ≤ 250 then "extra light"
  else if weight_value ≤ 350 then "light"
  else if weight_value ≤ 450 then "regular"
  else if weight_value ≤ 550 then "medium"
  else if weight_value ≤ 650 then "semi bold"
  else if weight_value ≤ 750 then "bold"
  else if weight_value ≤ 850 then "extra bold"
  else "black"

/-- `identify_glyph_type`: pick the measurement strategy for a glyph. -/
def identify_glyph_type (g : Glyph) (width height : ℚ) : String :=
  if width < height * 0.4 ∧ g.numberOfContours = 1 then "vertical_stroke"
  else if height < width * 0.4 ∧ g.numberOfContours = 1 then "horizontal_stroke"
  else
    let aspect_ratio := if height > 0 then width / height else 0
    if 0.8 < aspect_ratio ∧ aspect_ratio < 1.2 ∧ g.numberOfContours = 2 then
      "circular"
    else if g.numberOfContours > 2 ∨ (g.coordinates.getD []).length > 30 then
      "complex"
    else "complex"

/-- `measure_vertical_stroke_width`: bounding-box width, with a 0.85
correction unless very tall and narrow. -/
def measure_vertical_stroke_width (width height : ℚ) : ℚ :=
  if height > width * 5 then width else width * 0.85

/-- `measure_horizontal_stroke_width`: bounding-box height × 0.85. -/
def measure_horizontal_stroke_width (height : ℚ) : ℚ :=
  height * 0.85

/-- `coordinates[a..b]` inclusive; out-of-range indexing models the
`IndexError` that the caller's `except` turns into `None`. -/
def contourSlice (cs : List (ℤ × ℤ)) (a b : ℕ) : Option (List (ℤ × ℤ)) :=
  if b + 1 ≤ a then some []
  else if b < cs.length then some ((cs.drop a).take (b + 1 - a))
  else none

/-- Mean point (centroid) of a nonempty contour, as rationals. -/
def contourCenter (pts : List (ℤ × ℤ)) : ℚ × ℚ :=
  ((pts.map (fun p => (p.1 : ℚ))).sum / (pts.length : ℚ),
    (pts.map (fun p => (p.2 : ℚ))).sum / (pts.length : ℚ))

/-- Mean radial distance of a nonempty contour from its centroid. -/
def contourMeanRadius (M : NumModel) (pts : List (ℤ × ℤ)) : ℚ :=
  (pts.map (fun p => distQ M ((p.1 : ℚ), (p.2 : ℚ)) (contourCenter pts))).sum /
    (pts.length : ℚ)

/-- `measure_circular_glyph_stroke_width`: outer mean radius minus inner mean
radius, the contour with more points taken as the outer one. -/
def measure_circular_glyph_stroke_width (M : NumModel) (g : Glyph)
    (coordinates : List (ℤ × ℤ)) : Option ℚ :=
  match g.endPtsOfContours with
  | none => none
  | some end_points =>
    match end_points with
    | e0 :: e1 :: _ =>
      let contour1_points : ℤ := (e0 : ℤ) + 1
      let contour2_points : ℤ := (e1 : ℤ) - (e0 : ℤ)
      let ranges : ℕ × ℕ × ℕ × ℕ :=
        if contour1_points ≥ contour2_points then (0, e0, e0 + 1, e1)
        else (e0 + 1, e1, 0, e0)
      match contourSlice coordinates ranges.1 ranges.2.1,
          contourSlice coordinates ranges.2.2.1 ranges.2.2.2 with
      | some outer, some inner =>
        if outer = [] ∨ inner = [] then none
        else some (contourMeanRadius M outer - contourMeanRadius M inner)
      | _, _ => none
    | _ => none

/-- `measure_area_perimeter_stroke_width`: corrected area/perimeter ratio of
the bounding box. -/
def measure_area_perimeter_stroke_width (g : Glyph)
    (width0 height0 : Option ℚ) : Option ℚ :=
  let wh : Option (ℚ × ℚ) :=
    match width0, height0 with
    | some w, some h => some (w, h)
    | _, _ =>
      match g.coordinates with
      | none => none
      | some cs =>
        if cs.length = 0 then none
        else
          let xs := cs.map (fun c => (c.1 : ℚ))
          let ys := cs.map (fun c => (c.2 : ℚ))
          some (listMax xs - listMin xs, listMax ys - listMin ys)
  match wh with
  | none => none
  | some (width, height) =>
    let area := width * height
    let perimeter := 2 * (width + height)
    if perimeter > 0 then
      let aspect_ratio := if height > 0 then width / height else 1
      let correction :=
        if aspect_ratio > 2 ∨ aspect_ratio < 0.5 then
          if g.numberOfContours > 1 then (0.4 : ℚ) else 0.2
        else
          if g.numberOfContours > 1 then (0.6 : ℚ) else 0.3
      some (2 * area / perimeter * correction)
    else none

/-- Indices of on-curve points (`flag & 1` set), in order. -/
def onCurveIndices (flags : List ℕ) : List ℕ :=
  (flags.enum.filter (fun p => p.2 % 2 = 1)).map (fun p => p.1)

/-- Distances from sampled point `i` to every non-adjacent sampled point
(model of the inner `min_dist` loop of `measure_complex_glyph_stroke_width`). -/
def nonAdjacentDists (M : NumModel) (coordinates : List (ℤ × ℤ))
    (sampled : List (ℕ × ℕ)) (i : ℕ) (p1 : ℤ × ℤ) : List ℚ :=
  sampled.filterMap
    (fun pj =>
      if |(i : ℤ) - (pj.1 : ℤ)| < 2 ∨ i = pj.1 then none
      else
        let p2 := coordinates.getD pj.2 (0, 0)
        some (distQ M ((p1.1 : ℚ), (p1.2 : ℚ)) ((p2.1 : ℚ), (p2.2 : ℚ))))

/-- `measure_complex_glyph_stroke_width`: lower-quartile of each sampled
on-curve point's minimum distance to a non-adjacent sampled point. -/
def measure_complex_glyph_stroke_width (M : NumModel) (g : Glyph)
    (coordinates : List (ℤ × ℤ)) (flags : List ℕ) : Option ℚ :=
  let on_curve_indices := onCurveIndices flags
  if on_curve_indices.length < 4 then
    measure_area_perimeter_stroke_width g none none
  else
    let sample_size := min 20 on_curve_indices.length
    let sampled_indices := on_curve_indices.take sample_size
    let stroke_widths := sampled_indices.enum.filterMap
      (fun (pr : ℕ × ℕ) =>
        let dists := nonAdjacentDists M coordinates sampled_indices.enum pr.1
          (coordinates.getD pr.2 (0, 0))
        match dists with
        | [] => none
        | _ :: _ => some (listMin dists))
    match stroke_widths with
    | [] => measure_area_perimeter_stroke_width g none none
    | _ :: _ =>
      let sorted := sortAsc stroke_widths
      if stroke_widths.length ≥ 3 then some (sorted.getD (sorted.length / 4) 0)
      else some (sorted.getD 0 0)

/-- `measure_glyph_stroke_width`: strategy dispatch for one glyph. -/
def measure_glyph_stroke_width (M : NumModel) (g : Glyph) : Option ℚ :=
  match g.coordinates with
  | none => none
  | some cs =>
    if cs.length = 0 then none
    else
      let xs := cs.map (fun c => (c.1 : ℚ))
      let ys := cs.map (fun c => (c.2 : ℚ))
      let width := listMax xs - listMin xs
      let height := listMax ys - listMin ys
      if width ≤ 0 ∨ height ≤ 0 then none
      else
        match g.flags with
        | none => none
        | some flags =>
          if cs.length ≠ flags.length then none
          else
            let glyph_type := identify_glyph_type g width height
            if glyph_type = "vertical_stroke" then
              some (measure_vertical_stroke_width width height)
            else if glyph_type = "horizontal_stroke" then
              some (measure_horizontal_stroke_width height)
            else if glyph_type = "circular" ∧ g.numberOfContours = 2 then
              measure_circular_glyph_stroke_width M g cs
            else if glyph_type = "complex" then
              measure_complex_glyph_stroke_width M g cs flags
            else measure_area_perimeter_stroke_width g (some width) (some height)

/-- One stroke-width feature record (`calculate_stroke_width`'s dict). -/
structure StrokeInfo where
  stroke_width : Option ℚ
  normalized_stroke_width : Option ℚ
  weight_by_stroke : String
  reason : Option String := none
  is_estimated : Bool := false
  estimation_method : Option String := none
  deriving Repr, DecidableEq

/-- The `unknown`-labelled stroke record with a reason. -/
def strokeUnknown (reason : String) : StrokeInfo :=
  { stroke_width := none, normalized_stroke_width := none,
    weight_by_stroke := "unknown", reason := some reason }

/-- The `error`-labelled stroke record produced by the except-branch. -/
def strokeError (reason : String) : StrokeInfo :=
  { stroke_width := none, normalized_stroke_width := none,
    weight_by_stroke := "error", reason := some reason }

/-- The loop body of `calculate_stroke_width` over one probe glyph name:
skip empty names, glyphs missing from glyf, glyphs with no positive
contour count, and non-positive or failed measurements. -/
def strokeWidthOfName (M : NumModel) (glyfT : List (String × Glyph))
    (gn : String) : Option ℚ :=
  if gn = "" then none
  else
    match List.lookup gn glyfT with
    | none => none
    | some g =>
      if g.numberOfContours ≤ 0 then none
      else
        match measure_glyph_stroke_width M g with
        | some w => if w > 0 then some w else none
        | none => none

/-- `calculate_stroke_width`: measure probe glyphs {H,I,O,n,o,l}, average,
normalize by units-per-em, classify; OS/2-weight-class estimate for CFF
fonts; `unknown`/`error` records at each failure point. -/
def calculate_stroke_width (M : NumModel) (font : Font) : StrokeInfo :=
  match font.head with
  | none => strokeError "\x27head\x27"
  | some head =>
    match font.cmap with
    | none => strokeError "\x27cmap\x27"
    | some cmap =>
      if cmap = [] then strokeUnknown "No cmap table found"
      else
        -- code points of the probe characters H, I, O, n, o, l
        let sample_unicodes : List ℕ := [72, 73, 79, 110, 111, 108]
        let glyph_names := sample_unicodes.filterMap (fun u => List.lookup u cmap)
        if glyph_names = [] then strokeUnknown "No sample glyphs found"
        else
          match font.glyf with
          | some glyfT =>
            let stroke_widths :=
              glyph_names.filterMap (strokeWidthOfName M glyfT)
            match stroke_widths with
            | [] => strokeUnknown "Could not measure stroke widths"
            | _ :: _ =>
              let average := stroke_widths.sum / (stroke_widths.length : ℚ)
              if head.unitsPerEm = 0 then strokeError "division by zero"
              else
                let normalized := average / (head.unitsPerEm : ℚ)
                { stroke_width := some average,
                  normalized_stroke_width := some normalized,
                  weight_by_stroke :=
                    classify_weight_by_normalized_stroke normalized }
          | none =>
            if font.cff.isSome then
              match font.os2 with
              | none => strokeError "\x27OS/2\x27"
              | some os2 =>
                let estimated_normalized_width := (os2.usWeightClass : ℚ) / 9000
                let synthetic_stroke_width :=
                  estimated_normalized_width * (head.unitsPerEm : ℚ)
                { stroke_width := some synthetic_stroke_width,
                  normalized_stroke_width := some estimated_normalized_width,
                  weight_by_stroke := classify_weight_by_value os2.usWeightClass,
                  is_estimated := true,
                  estimation_method := some "OS/2 weight class" }
            else strokeUnknown "Unsupported outline format"

/-! ## Aspect/width classifier -/

/-- One aspect-ratio feature record. -/
structure AspectInfo where
  aspect_ratio : Option ℚ
  width_by_aspect : String
  reason : Option String := none
  deriving Repr, DecidableEq

/-- `measure_glyph_aspect_ratio`: bounding-box width/height of one glyph. -/
def measure_glyph_aspect_ratio (g : Glyph) : Option ℚ :=
  match g.coordinates with
  | none => none
  | some cs =>
    if cs.length = 0 then none
    else
      let xs := cs.map (fun c => (c.1 : ℚ))
      let ys := cs.map (fun c => (c.2 : ℚ))
      let width := listMax xs - listMin xs
      let height := listMax ys - listMin ys
      if height ≤ 0 then none else some (width / height)

/-- `classify_font_width_by_aspect_ratio`: average the aspect ratio of probe
glyphs {m,w,o,H,O} and classify condensed/normal/expanded. -/
def classify_font_width_by_aspect_ratio (font : Font) : AspectInfo :=
  match font.glyf with
  | none =>
    { aspect_ratio := none, width_by_aspect := "unknown",
      reason := some "No glyf table (possibly CFF/OTF)" }
  | some glyfT =>
    match font.cmap with
    | none =>
      { aspect_ratio := none, width_by_aspect := "error",
        reason := some "\x27cmap\x27" }
    | some cmap =>
      if cmap = [] then
        { aspect_ratio := none, width_by_aspect := "unknown",
          reason := some "No cmap table found" }
      else
        -- code points of the probe characters m, w, o, H, O
        let sample_unicodes : List ℕ := [109, 119, 111, 72, 79]
        let glyph_names := sample_unicodes.filterMap (fun u => List.lookup u cmap)
        if glyph_names = [] then
          { aspect_ratio := none, width_by_aspect := "unknown",
            reason := some "No sample glyphs found" }
        else
          let aspect_ratios := glyph_names.filterMap
            (fun gn =>
              if gn = "" then none
              else
                match List.lookup gn glyfT with
                | none => none
                | some g =>
                  if g.numberOfContours ≤ 0 then none
                  else
                    match measure_glyph_aspect_ratio g with
                    | some ar => if ar > 0 then some ar else none
                    | none => none)
          match aspect_ratios with
          | [] =>
            { aspect_ratio := none, width_by_aspect := "unknown",
              reason := some "Could not measure aspect ratios" }
          | _ :: _ =>
            let average := aspect_ratios.sum / (aspect_ratios.length : ℚ)
            let width_class :=
              if average < 0.7 then "condensed"
              else if average < 1.0 then "normal"
              else "expanded"
            { aspect_ratio := some average, width_by_aspect := width_class }

/-! ## Vertical metrics analyzer -/

/-- The vertical-metrics dict: every key optional, matching the source's
incrementally-populated dictionary. -/
structure VerticalMetrics where
  error : Option String := none
  x_height : Option ℤ := none
  normalized_x_height : Option ℚ := none
  cap_height : Option ℤ := none
  normalized_cap_height : Option ℚ := none
  ascender : Option ℤ := none
  descender : Option ℤ := none
  normalized_ascender : Option ℚ := none
  normalized_descender : Option ℚ := none
  total_height : Option ℤ := none
  normalized_total_height : Option ℚ := none
  ascender_ratio : Option ℚ := none
  descender_ratio : Option ℚ := none
  x_to_cap_ratio : Option ℚ := none
  x_height_class : Option String := none
  deriving Repr, DecidableEq

/-- The single error record returned when glyf/head/hhea/OS/2 is missing. -/
def vmMissingRecord : VerticalMetrics :=
  { error := some "Missing required tables for vertical metrics analysis" }

/-- The except-branch record for a `ZeroDivisionError` inside the analyzer. -/
def vmDivisionError : VerticalMetrics :=
  { error := some "Error analyzing vertical metrics: division by zero" }

/-- `measure_glyph_height`: bounding-box height of one character's glyph;
`None` at every internal failure (caught exception included). -/
def measure_glyph_height (font : Font) (c : ℕ) : Option ℤ :=
  match font.cmap with
  | none => none
  | some cmap =>
    match List.lookup c cmap with
    | none => none
    | some glyph_name =>
      match font.glyf with
      | none => none
      | some glyfT =>
        match List.lookup glyph_name glyfT with
        | none => none
        | some g =>
          match g.coordinates with
          | none => none
          | some cs =>
            if cs.length = 0 then none
            else
              let ys := cs.map (fun p => p.2)
              some (ys.foldl max (ys.headD 0) - ys.foldl min (ys.headD 0))

/-- `analyze_vertical_metrics`: x-height/cap-height (table value or measured
glyph height), ascender/descender (OS/2 or hhea), derived normalized values
and ratios; a single error record when required tables are missing or a
division by zero is raised. -/
def analyze_vertical_metrics (font : Font) : VerticalMetrics :=
  match font.glyf, font.head, font.hhea, font.os2 with
  | some _, some head, some hhea, some os2 =>
    let upem := head.unitsPerEm
    let xh : Option ℤ :=
      match os2.sxHeight with
      | some v =>
        if v > 0 then some v
        else
          match measure_glyph_height font 120 with
          | some h => if h ≠ 0 then some h else none
          | none => none
      | none =>
        match measure_glyph_height font 120 with
        | some h => if h ≠ 0 then some h else none
        | none => none
    let ch : Option ℤ :=
      match os2.sCapHeight with
      | some v =>
        if v > 0 then some v
        else
          match measure_glyph_height font 72 with
          | some h => if h ≠ 0 then some h else none
          | none => none
      | none =>
        match measure_glyph_height font 72 with
        | some h => if h ≠ 0 then some h else none
        | none => none
    let ad : Option (ℤ × ℤ) :=
      match os2.sTypoAscender, os2.sTypoDescender with
      | some a, some d => some (a, d)
      | _, _ =>
        match hhea.ascent, hhea.descent with
        | some a, some d => some (a, d)
        | _, _ => none
    -- a normalized value is computed as soon as any of the three quantities
    -- exists, so units-per-em = 0 then raises ZeroDivisionError
    if upem = 0 ∧ (xh.isSome ∨ ch.isSome ∨ ad.isSome) then vmDivisionError
    else if (match ad with | some p => p.1 - p.2 == 0 | none => false) then
      vmDivisionError
    else
      { x_height := xh
        normalized_x_height := xh.map (fun v => (v : ℚ) / (upem : ℚ))
        cap_height := ch
        normalized_cap_height := ch.map (fun v => (v : ℚ) / (upem : ℚ))
        ascender := ad.map (fun p => p.1)
        descender := ad.map (fun p => p.2)
        normalized_ascender := ad.map (fun p => (p.1 : ℚ) / (upem : ℚ))
        normalized_descender := ad.map (fun p => |(p.2 : ℚ)| / (upem : ℚ))
        total_height := ad.map (fun p => p.1 - p.2)
        normalized_total_height :=
          ad.map (fun p => ((p.1 - p.2 : ℤ) : ℚ) / (upem : ℚ))
        ascender_ratio := ad.map (fun p => (p.1 : ℚ) / ((p.1 - p.2 : ℤ) : ℚ))
        descender_ratio := ad.map (fun p => |(p.2 : ℚ)| / ((p.1 - p.2 : ℤ) : ℚ))
        x_to_cap_ratio :=
          match xh, ch with
          | some x, some c =>
            if c > 0 then some ((x : ℚ) / (c : ℚ)) else none
          | _, _ => none
        x_height_class :=
          match xh, ch with
          | some x, some c =>
            if c > 0 then
              let r := (x : ℚ) / (c : ℚ)
              some (if r < 0.65 then "small"
                else if r < 0.75 then "medium" else "large")
            else none
          | _, _ => none }
  | _, _, _, _ => vmMissingRecord

/-! ## Spacing analyzer -/

/-- One spacing feature record (`analyze_spacing`'s dict). -/
structure SpacingInfo where
  width_type : String
  spacing_type : String
  reason : Option String := none
  average_width : Option ℚ := none
  average_bearing : Option ℚ := none
  normalized_width : Option ℚ := none
  normalized_bearing : Option ℚ := none
  is_cff : Option Bool := none
  deriving Repr, DecidableEq

/-- `analyze_spacing`: mean advance width and left side bearing over the full
hmtx table, normalized by units-per-em, classified into width and spacing
bands. -/
def analyze_spacing (font : Font) : SpacingInfo :=
  match font.hmtx with
  | none =>
    { width_type := "unknown", spacing_type := "unknown",
      reason := some "No hmtx table" }
  | some metrics =>
    let advance_widths := metrics.map (fun m => m.2.1)
    let left_side_bearings := metrics.map (fun m => m.2.2)
    match advance_widths with
    | [] =>
      { width_type := "unknown", spacing_type := "unknown",
        reason := some "No metrics found" }
    | _ :: _ =>
      let avg_width : ℚ :=
        ((advance_widths.map (fun a => (a : ℚ))).sum) / (advance_widths.length : ℚ)
      let avg_bearing : ℚ :=
        if left_side_bearings = [] then 0
        else ((left_side_bearings.map (fun a => (a : ℚ))).sum) /
          (left_side_bearings.length : ℚ)
      match font.head with
      | none =>
        { width_type := "error", spacing_type := "error",
          reason := some "\x27head\x27" }
      | some head =>
        if head.unitsPerEm = 0 then
          { width_type := "error", spacing_type := "error",
            reason := some "division by zero" }
        else
          let normalized_width := avg_width / (head.unitsPerEm : ℚ)
          let normalized_bearing := avg_bearing / (head.unitsPerEm : ℚ)
          let width_type :=
            if normalized_width > 0.7 then "very wide"
            else if normalized_width > 0.6 then "wide"
            else if normalized_width > 0.5 then "medium"
            else if normalized_width > 0.4 then "narrow"
            else "very narrow"
          let bearing_type :=
            if normalized_bearing > 0.1 then "loose"
            else if normalized_bearing > 0.05 then "medium"
            else "tight"
          { width_type := width_type, spacing_type := bearing_type,
            average_width := some avg_width,
            average_bearing := some avg_bearing,
            normalized_width := some normalized_width,
            normalized_bearing := some normalized_bearing,
            is_cff := some font.cff.isSome }

/-! ## Shape (curvature) classifier -/

/-- One shape feature record (`analyze_glyph_shapes`'s dict). -/
structure ShapeInfo where
  type : String
  reason : Option String := none
  curve_to_straight_ratio : Option ℚ := none
  average_angle_change : Option ℚ := none
  is_estimated : Bool := false
  estimation_method : Option String := none
  curvy_score : Option ℤ := none
  angular_score : Option ℤ := none
  deriving Repr, DecidableEq

/-- The ratio-band mapping of `analyze_glyph_shapes` (5 bands over the
off-curve/on-curve point ratio). -/
def classifyShapeFromRatio (curve_ratio : ℚ) : String :=
  if curve_ratio > 1.5 then "very curvy"
  else if curve_ratio > 1.0 then "curvy"
  else if curve_ratio > 0.6 then "moderately curvy"
  else if curve_ratio > 0.3 then "slightly curvy"
  else "angular"

/-- The one-band shift toward `angular` applied when the average turn angle
exceeds 60 degrees. -/
def shiftTowardAngular (ty : String) : String :=
  if ty = "very curvy" then "curvy"
  else if ty = "curvy" then "moderately curvy"
  else if ty = "moderately curvy" then "slightly curvy"
  else if ty = "slightly curvy" then "angular"
  else ty

/-- Turn-angle contribution (in degrees, via the numeric model) of the
circular walk over consecutive on-curve point triples of one glyph. -/
def glyphAngleSum (M : NumModel) (coordinates : List (ℤ × ℤ))
    (flags : List ℕ) : ℚ :=
  let on_curve_indices := onCurveIndices flags
  let n := on_curve_indices.length
  if n ≥ 3 then
    ((List.range n).map
      (fun i =>
        let idx1 := on_curve_indices.getD i 0
        let idx2 := on_curve_indices.getD ((i + 1) % n) 0
        let idx3 := on_curve_indices.getD ((i + 2) % n) 0
        let p1 := coordinates.getD idx1 (0, 0)
        let p2 := coordinates.getD idx2 (0, 0)
        let p3 := coordinates.getD idx3 (0, 0)
        let v1 : ℚ × ℚ := ((p2.1 - p1.1 : ℤ), (p2.2 - p1.2 : ℤ))
        let v2 : ℚ × ℚ := ((p3.1 - p2.1 : ℤ), (p3.2 - p2.2 : ℤ))
        if (v1.1 = 0 ∧ v1.2 = 0) ∨ (v2.1 = 0 ∧ v2.2 = 0) then 0
        else
          let dot_product := v1.1 * v2.1 + v1.2 * v2.2
          let v1_mag := M.sqrt (v1.1 ^ 2 + v1.2 ^ 2)
          let v2_mag := M.sqrt (v2.1 ^ 2 + v2.2 ^ 2)
          if v1_mag * v2_mag = 0 then 0
          else
            let cos_angle := max (-1) (min 1 (dot_product / (v1_mag * v2_mag)))
            M.acosDeg cos_angle)).sum
  else 0

/-- The per-glyph accumulation step of `analyze_glyph_shapes`:
(curve segments, straight segments, total angle change). -/
def shapeAccumStep (M : NumModel) (glyfT : List (String × Glyph))
    (acc : ℕ × ℕ × ℚ) (gn : String) : ℕ × ℕ × ℚ :=
  if gn = "" then acc
  else
    match List.lookup gn glyfT with
    | none => acc
    | some g =>
      if g.numberOfContours ≤ 0 then acc
      else
        match g.coordinates, g.flags with
        | some cs, some flags =>
          if cs.length ≠ flags.length then acc
          else
            let on_curve_points := (flags.filter (fun f => f % 2 = 1)).length
            let off_curve_points := flags.length - on_curve_points
            if on_curve_points > 0 then
              (acc.1 + off_curve_points, acc.2.1 + on_curve_points,
                acc.2.2 + glyphAngleSum M cs flags)
            else acc
        | _, _ => acc

/-- `analyze_glyph_shapes`: off/on-curve ratio bands with an angle-based
refinement for glyf fonts, metadata keyword/PANOSE scores for CFF fonts. -/
def analyze_glyph_shapes (M : NumModel) (font : Font) : ShapeInfo :=
  match font.cmap with
  | none => { type := "unknown", reason := some "\x27cmap\x27" }
  | some cmap =>
    if cmap = [] then
      { type := "unknown", reason := some "No cmap table found" }
    else
      -- code points of the probe characters a, e, o, n, h, m, v, w, s, c, z, k
      let sample_unicodes : List ℕ :=
        [97, 101, 111, 110, 104, 109, 118, 119, 115, 99, 122, 107]
      let glyph_names := sample_unicodes.filterMap (fun u => List.lookup u cmap)
      if glyph_names = [] then
        { type := "unknown", reason := some "No sample glyphs found" }
      else
        match font.glyf with
        | some glyfT =>
          let acc := glyph_names.foldl (shapeAccumStep M glyfT) (0, 0, 0)
          let curve_segments := acc.1
          let straight_segments := acc.2.1
          let total_angle_changes := acc.2.2
          let base : ShapeInfo :=
            if straight_segments > 0 then
              let curve_ratio := (curve_segments : ℚ) / (straight_segments : ℚ)
              { type := classifyShapeFromRatio curve_ratio,
                curve_to_straight_ratio := some curve_ratio }
            else
              { type := "unknown", reason := some "Could not analyze contours" }
          if total_angle_changes > 0 ∧ straight_segments > 0 then
            let avg_angle_change :=
              total_angle_changes / (straight_segments : ℚ)
            let withAngle :=
              { base with average_angle_change := some avg_angle_change }
            if avg_angle_change > 60 then
              { withAngle with type := shiftTowardAngular withAngle.type }
            else withAngle
          else base
        | none =>
          if font.cff.isSome then
            let font_name :=
              strToLower
                (match font.name with
                  | some nm => nm.familyName.getD ""
                  | none => "")
            let curvy_keywords := ["round", "soft", "curv", "script", "brush",
              "hand"]
            let angular_keywords := ["angular", "gothic", "square", "geo",
              "block", "pixel"]
            let curvy0 : ℤ :=
              ((curvy_keywords.filter (fun k => strContains font_name k)).length : ℤ)
            let angular0 : ℤ :=
              ((angular_keywords.filter (fun k => strContains font_name k)).length : ℤ)
            let bonus : ℤ × ℤ :=
              match font.os2 with
              | some o =>
                match o.panose with
                | some p =>
                  match p.bLetterForm with
                  | some lf =>
                    if 2 ≤ lf ∧ lf ≤ 5 then (0, 2)
                    else if 9 ≤ lf ∧ lf ≤ 11 then (2, 0)
                    else (0, 0)
                  | none => (0, 0)
                | none => (0, 0)
              | none => (0, 0)
            let curvy_score := curvy0 + bonus.1
            let angular_score := angular0 + bonus.2
            let shape_type :=
              if curvy_score > angular_score then "curvy"
              else if angular_score > curvy_score then "angular"
              else "balanced"
            { type := shape_type, is_estimated := true,
              estimation_method := some "metadata analysis",
              curvy_score := some curvy_score,
              angular_score := some angular_score }
          else { type := "unknown", reason := some "Unsupported font format" }

/-! ## Stroke contrast analyzer -/

/-- One contrast feature record (`analyze_stroke_contrast`'s dict). -/
structure ContrastInfo where
  contrast_ratio : Option ℚ
  contrast_type : String
  sample_size : Option ℕ := none
  estimated : Bool := false
  reason : Option String := none
  deriving Repr, DecidableEq

/-- The band classification of `analyze_stroke_contrast` (source lines
1522–1529).  The `if/elif` chain has no final `else`: an average ratio ≥ 4.0
leaves `contrast_type` unassigned (`none`), which at the dict construction
raises `UnboundLocalError` — caught by the analyzer's except-branch. -/
def contrastTypeOfRatio (avg_contrast_ratio : ℚ) : Option String :=
  if avg_contrast_ratio < 1.1 then some "monoline"
  else if avg_contrast_ratio < 1.5 then some "low contrast"
  else if avg_contrast_ratio < 2.5 then some "medium contrast"
  else if avg_contrast_ratio < 4.0 then some "extreme contrast"
  else none

/-- Per-glyph contrast-ratio estimate from bounding-box proportions. -/
def contrastGlyphRatio (cmap : List (ℕ × String)) (gn : String)
    (g : Glyph) : Option ℚ :=
  if g.numberOfContours ≤ 0 then none
  else
    match g.bbox with
    | none => none
    | some (xMin, xMax, yMin, yMax) =>
      let width : ℚ := ((xMax - xMin : ℤ) : ℚ)
      let height : ℚ := ((yMax - yMin : ℤ) : ℚ)
      if width ≤ 0 ∨ height ≤ 0 then none
      -- cmap.get(ord(c)) for c in O (79), o (111)
      else if some gn = List.lookup 79 cmap ∨
          some gn = List.lookup 111 cmap then
        if g.numberOfContours ≥ 2 then
          let horizontal_width := width * 0.15
          let vertical_width := height * 0.15
          if horizontal_width > 0 ∧ vertical_width > 0 then
            some (max horizontal_width vertical_width /
              min horizontal_width vertical_width)
          else none
        else none
      -- cmap.get(ord(c)) for c in B (66), D (68), b (98), d (100)
      else if some gn = List.lookup 66 cmap ∨
          some gn = List.lookup 68 cmap ∨
          some gn = List.lookup 98 cmap ∨
          some gn = List.lookup 100 cmap then
        if width > 0 ∧ height > 0 then
          let vertical_width := width * 0.2
          let horizontal_width := height * 0.1
          if horizontal_width > 0 ∧ vertical_width > 0 then
            some (max horizontal_width vertical_width /
              min horizontal_width vertical_width)
          else none
        else none
      else none

/-- `analyze_stroke_contrast`: average the per-glyph ratio over probes
{O,o,B,b,D,d} and classify; style-keyed constant fallback otherwise. -/
def analyze_stroke_contrast (font : Font) : ContrastInfo :=
  match font.glyf with
  | none =>
    { contrast_ratio := none, contrast_type := "unknown",
      reason := some "No glyf table" }
  | some glyfT =>
    match font.cmap with
    | none =>
      { contrast_ratio := none, contrast_type := "error",
        reason := some "\x27cmap\x27" }
    | some cmap =>
      -- code points of the probe characters O, o, B, b, D, d
      let sample_unicodes : List ℕ := [79, 111, 66, 98, 68, 100]
      let glyph_names := sample_unicodes.filterMap (fun u => List.lookup u cmap)
      if glyph_names = [] then
        { contrast_ratio := none, contrast_type := "unknown",
          reason := some "No sample glyphs found" }
      else
        let contrast_ratios := glyph_names.filterMap
          (fun gn =>
            if gn = "" then none
            else
              match List.lookup gn glyfT with
              | none => none
              | some g => contrastGlyphRatio cmap gn g)
        match contrast_ratios with
        | _ :: _ =>
          let avg := contrast_ratios.sum / (contrast_ratios.length : ℚ)
          match contrastTypeOfRatio avg with
          | some contrast_type =>
            { contrast_ratio := some avg, contrast_type := contrast_type,
              sample_size := some contrast_ratios.length }
          | none =>
            { contrast_ratio := none, contrast_type := "error",
              reason :=
                some "local variable \x27contrast_type\x27 referenced before assignment" }
        | [] =>
          let style := determine_font_style font
          if style = "serif" then
            { contrast_ratio := some 2.5, contrast_type := "medium contrast",
              estimated := true }
          else if style = "sans-serif" then
            { contrast_ratio := some 1.2, contrast_type := "low contrast",
              estimated := true }
          else if style = "script" then
            { contrast_ratio := some 2.0, contrast_type := "medium contrast",
              estimated := true }
          else
            { contrast_ratio := some 1.5, contrast_type := "low contrast",
              estimated := true }

/-! ## Font format detection -/

/-- `detect_font_format`; `ext` is the lower-cased file extension. -/
def detect_font_format (font : Font) (ext : String) : String :=
  if ext = ".woff2" then "WOFF2"
  else if ext = ".woff" then "WOFF"
  else if font.cff.isSome then "OpenType-CFF"
  else if font.glyf.isSome then
    if ext = ".otf" then "OpenType-TT" else "TrueType"
  else if ext = ".otf" then "OpenType"
  else if ext = ".ttf" then "TrueType"
  else "Unknown"

/-! ## Personality scoring engine -/

/-- The 11-trait vector, fields in the source dict's insertion order. -/
structure Traits where
  formality : ℚ := 0
  friendliness : ℚ := 0
  strength : ℚ := 0
  elegance : ℚ := 0
  creativity : ℚ := 0
  modernity : ℚ := 0
  playfulness : ℚ := 0
  trustworthiness : ℚ := 0
  professionalism : ℚ := 0
  warmth : ℚ := 0
  dynamism : ℚ := 0
  deriving Repr, DecidableEq

/-- The 11 trait names in insertion order. -/
def traitNames : List String :=
  ["formality", "friendliness", "strength", "elegance", "creativity",
    "modernity", "playfulness", "trustworthiness", "professionalism",
    "warmth", "dynamism"]

/-- Dictionary-style lookup of a trait by name (0 for an absent key). -/
def getTrait (t : Traits) (name : String) : ℚ :=
  if name = "formality" then t.formality
  else if name = "friendliness" then t.friendliness
  else if name = "strength" then t.strength
  else if name = "elegance" then t.elegance
  else if name = "creativity" then t.creativity
  else if name = "modernity" then t.modernity
  else if name = "playfulness" then t.playfulness
  else if name = "trustworthiness" then t.trustworthiness
  else if name = "professionalism" then t.professionalism
  else if name = "warmth" then t.warmth
  else if name = "dynamism" then t.dynamism
  else 0

/-- Trait values as an ordered association list (dict iteration order). -/
def traitsPairs (t : Traits) : List (String × ℚ) :=
  [("formality", t.formality), ("friendliness", t.friendliness),
    ("strength", t.strength), ("elegance", t.elegance),
    ("creativity", t.creativity), ("modernity", t.modernity),
    ("playfulness", t.playfulness), ("trustworthiness", t.trustworthiness),
    ("professionalism", t.professionalism), ("warmth", t.warmth),
    ("dynamism", t.dynamism)]

/-- Style rules: additive trait deltas keyed on the style label. -/
def applyStyleRules (style : String) (p : Traits) : Traits :=
  if style = "serif" then
    { p with
      formality := p.formality + 1
      elegance := p.elegance + 1
      modernity := p.modernity - 1 }
  else if style = "sans-serif" then
    { p with
      modernity := p.modernity + 1
      formality := p.formality + 0.5 }
  else if style = "script" then
    { p with
      elegance := p.elegance + 1.5
      creativity := p.creativity + 1.5
      playfulness := p.playfulness + 1 }
  else if style = "decorative" then
    { p with
      creativity := p.creativity + 2
      playfulness := p.playfulness + 1.5
      formality := p.formality - 1 }
  else if style = "monospace" then
    { p with
      modernity := p.modernity + 0.5
      creativity := p.creativity - 1 }
  else p

/-- Weight rules keyed on the stroke-weight band. -/
def applyWeightRules (weight_by_stroke : String) (p : Traits) : Traits :=
  if weight_by_stroke = "thin" ∨ weight_by_stroke = "light" then
    { p with
      elegance := p.elegance + 1
      strength := p.strength - 1 }
  else if weight_by_stroke = "medium" ∨ weight_by_stroke = "bold" then
    { p with strength := p.strength + 1 }
  else if weight_by_stroke = "extra bold" ∨ weight_by_stroke = "black" then
    { p with
      strength := p.strength + 2
      formality := p.formality - 0.5 }
  else p

/-- Width rules keyed on substrings of the OS/2 width description. -/
def applyWidthRules (width_desc : String) (p : Traits) : Traits :=
  if strContains (strToLower width_desc) "condensed" then
    { p with
      modernity := p.modernity + 0.5
      elegance := p.elegance - 0.5 }
  else if strContains (strToLower width_desc) "expanded" then
    { p with
      elegance := p.elegance + 0.5
      friendliness := p.friendliness + 0.5 }
  else p

/-- Shape rules keyed on substrings of the shape label. -/
def applyShapeRules (shape_type : String) (p : Traits) : Traits :=
  if strContains shape_type "curvy" then
    let p1 :=
      { p with
        friendliness := p.friendliness + 1
        playfulness := p.playfulness + 0.5 }
    if strContains shape_type "very" then
      { p1 with
        friendliness := p1.friendliness + 0.5
        playfulness := p1.playfulness + 0.5 }
    else p1
  else if strContains shape_type "angular" then
    { p with
      strength := p.strength + 1
      formality := p.formality + 0.5 }
  else p

/-- Spacing rules keyed on the bearing band. -/
def applySpacingRules (spacing_type : String) (p : Traits) : Traits :=
  if spacing_type = "tight" then { p with modernity := p.modernity + 0.5 }
  else if spacing_type = "loose" then
    { p with
      friendliness := p.friendliness + 0.5
      elegance := p.elegance + 0.5 }
  else p

/-- X-height rule, fires only when the metrics dict carries the key. -/
def applyXHeightRule (vm : VerticalMetrics) (p : Traits) : Traits :=
  match vm.x_height_class with
  | some c =>
    if c = "large" then
      { p with
        friendliness := p.friendliness + 0.5
        modernity := p.modernity + 0.5 }
    else if c = "small" then
      { p with
        elegance := p.elegance + 0.5
        formality := p.formality + 0.5 }
    else p
  | none => p

/-- Ascender/descender-ratio rules, firing only when both keys exist. -/
def applyAscDescRule (vm : VerticalMetrics) (p : Traits) : Traits :=
  match vm.ascender_ratio, vm.descender_ratio with
  | some ascender_ratio, some descender_ratio =>
    let p1 :=
      if ascender_ratio > 0.7 then
        { p with
          elegance := p.elegance + 0.5
          formality := p.formality + 0.5 }
      else p
    if descender_ratio > 0.3 then
      { p1 with creativity := p1.creativity + 0.5 }
    else p1
  | _, _ => p

/-- Contrast rules keyed on the contrast band (the `contrast_type` key is
present on every record the analyzer can return). -/
def applyContrastRule (contrast_type : String) (p : Traits) : Traits :=
  if contrast_type = "high contrast" ∨ contrast_type = "extreme contrast" then
    { p with
      elegance := p.elegance + 1
      formality := p.formality + 0.5
      modernity := p.modernity - 0.5 }
  else if contrast_type = "monoline" then
    { p with
      modernity := p.modernity + 1
      friendliness := p.friendliness + 0.5 }
  else p

/-- The final clamp of one trait to [-2, 2]: `max(-2, min(2, v))`. -/
def clampTrait (v : ℚ) : ℚ := max (-2) (min 2 v)

/-- Clamp every trait to [-2, 2]. -/
def clampTraits (p : Traits) : Traits :=
  { formality := clampTrait p.formality,
    friendliness := clampTrait p.friendliness,
    strength := clampTrait p.strength,
    elegance := clampTrait p.elegance,
    creativity := clampTrait p.creativity,
    modernity := clampTrait p.modernity,
    playfulness := clampTrait p.playfulness,
    trustworthiness := clampTrait p.trustworthiness,
    professionalism := clampTrait p.professionalism,
    warmth := clampTrait p.warmth,
    dynamism := clampTrait p.dynamism }

/-- The 4-band phrase choice used per trait by
`generate_emotional_description`. -/
def phraseFor (v : ℚ) (strong mild strongNeg mildNeg : String) : List String :=
  if v > 1 then [strong]
  else if v > 0 then [mild]
  else if v < -1 then [strongNeg]
  else if v < 0 then [mildNeg]
  else []

/-- All description phrases, in trait iteration order. -/
def descPhrases (p : Traits) : List String :=
  phraseFor p.formality
      "projects considerable formality and seriousness"
      "has a somewhat formal character"
      "has a very casual and informal character"
      "has a relaxed, casual feel" ++
  phraseFor p.friendliness
      "has a welcoming and approachable quality"
      "appears friendly and accessible"
      "may appear somewhat cold or distant"
      "has a slightly reserved quality" ++
  phraseFor p.strength
      "projects considerable strength and confidence"
      "conveys stability and assurance"
      "appears delicate and light"
      "has a somewhat gentle character" ++
  phraseFor p.elegance
      "exudes sophistication and elegance"
      "has a refined, polished quality"
      "has a deliberately unrefined, raw quality"
      "prioritizes function over aesthetic refinement" ++
  phraseFor p.creativity
      "is highly creative and expressive"
      "shows creative character"
      "is very conventional and practical"
      "has a straightforward, no-nonsense quality" ++
  phraseFor p.modernity
      "has a very contemporary, modern aesthetic"
      "feels current and up-to-date"
      "has a distinctly traditional or classical feel"
      "has somewhat traditional characteristics" ++
  phraseFor p.playfulness
      "is playful and fun"
      "has a touch of playfulness"
      "is very serious and businesslike"
      "maintains a certain seriousness" ++
  phraseFor p.trustworthiness
      "conveys a strong sense of trust and reliability"
      "appears trustworthy and dependable"
      "may appear untrustworthy or deceptive"
      "has a slightly untrustworthy quality" ++
  phraseFor p.professionalism
      "exudes professionalism and competence"
      "appears professional and polished"
      "may appear unprofessional or amateurish"
      "has a slightly unprofessional quality" ++
  phraseFor p.warmth
      "conveys a warm and inviting atmosphere"
      "appears warm and friendly"
      "may appear cold or distant"
      "has a slightly cold quality" ++
  phraseFor p.dynamism
      "conveys energy and movement"
      "appears dynamic and lively"
      "may appear static or unchanging"
      "has a slightly static quality"

/-- The default neutral description sentence. -/
def neutralDescription : String :=
  "This font has a balanced personality without strongly pronounced characteristics."

/-- `generate_emotional_description`: join phrases into one sentence, or the
neutral default. -/
def generate_emotional_description (p : Traits) : String :=
  match (descPhrases p).filter (fun d => d ≠ "") with
  | [] => neutralDescription
  | [d] => "This font " ++ d ++ "."
  | [d1, d2] => "This font " ++ d1 ++ " and " ++ d2 ++ "."
  | ds =>
    "This font " ++ String.intercalate ", " ds.dropLast ++ ", and " ++
      ds.getLastD "" ++ "."

/-- Stable descending insertion by value (Python's stable `sort` with
`reverse=True`). -/
def insertDescStable (x : String × ℚ) :
    List (String × ℚ) → List (String × ℚ)
  | [] => [x]
  | y :: ys => if x.2 ≥ y.2 then x :: y :: ys else y :: insertDescStable x ys

/-- Stable descending sort by value. -/
def sortDescStable : List (String × ℚ) → List (String × ℚ)
  | [] => []
  | x :: xs => insertDescStable x (sortDescStable xs)

/-- Dominant traits: the up-to-3 highest positive traits, stable order. -/
def dominantTraits (p : Traits) : List (String × ℚ) :=
  (sortDescStable ((traitsPairs p).filter (fun t => t.2 > 0))).take 3

/-! ## Use-case determination -/

/-- The two use-case lists. -/
structure UseCases where
  suitable_for : List String
  less_suitable_for : List String
  deriving Repr, DecidableEq

/-- The feature-record bundle passed to the personality engine (the
`font_properties` dict before the `personality` key is added). -/
structure WeightInfo where
  cls : ℤ
  description : String
  stroke_width : Option ℚ
  normalized_stroke_width : Option ℚ
  weight_by_stroke : String
  deriving Repr, DecidableEq

/-- The `width` sub-dict of the font-properties dict. -/
structure WidthInfo where
  cls : ℤ
  description : String
  aspect_ratio : Option ℚ
  width_by_aspect : String
  deriving Repr, DecidableEq

/-- The font-properties dict (pre-personality). -/
structure FontInfo where
  format : String
  style : String
  weight : WeightInfo
  width : WidthInfo
  shape : ShapeInfo
  spacing : SpacingInfo
  vertical_metrics : VerticalMetrics
  contrast : ContrastInfo
  font_name : String
  deriving Repr, DecidableEq

/-- `determine_suitable_use_cases`: ordered rule table over trait thresholds
and style/weight combinations; both lists deduplicated at the end. -/
def determine_suitable_use_cases (font_info : FontInfo) (p : Traits) :
    UseCases :=
  let style := font_info.style
  let weight_by_stroke := font_info.weight.weight_by_stroke
  let s1 := if p.formality > 1 ∧ p.elegance > 0 then
    ["Formal invitations", "Luxury branding", "High-end restaurant menus",
      "Wedding stationery"] else []
  let s2 := if p.formality > 0 ∧ p.modernity > 0 then
    ["Corporate communications", "Business websites", "Professional reports",
      "Legal documents"] else []
  let s3 := if p.friendliness > 1 ∧ p.playfulness > 0 then
    ["Children\x27s books", "Casual brand messaging", "Greeting cards",
      "Informal invitations"] else []
  let s4 := if p.creativity > 1 ∧ p.playfulness > 0 then
    ["Creative agency branding", "Art exhibition materials",
      "Entertainment industry", "Festival promotions"] else []
  let s5 := if p.modernity > 1 ∧ p.strength > 0 then
    ["Tech company branding", "Sports marketing", "Modern advertising",
      "App interfaces"] else []
  let s6 := if p.elegance > 1 ∧ p.creativity > 0 then
    ["Fashion branding", "Beauty product packaging", "Lifestyle magazines",
      "Boutique marketing"] else []
  let l1 := if p.formality > 1 ∧ p.elegance > 1 then
    ["Casual social media posts", "Children\x27s content",
      "Playful advertising"] else []
  let l2 := if p.playfulness > 1 ∧ p.creativity > 1 then
    ["Legal documents", "Academic papers", "Medical information",
      "Financial reports"] else []
  let l3 := if p.modernity < -1 ∧ p.creativity < -1 then
    ["Tech startups", "Modern digital interfaces",
      "Youth-oriented brands"] else []
  let sSerif := if style = "serif" ∧
      (weight_by_stroke = "regular" ∨ weight_by_stroke = "medium") then
    ["Long-form reading", "Book typography", "News publications"] else []
  let sSans := if style = "sans-serif" ∧
      (weight_by_stroke = "regular" ∨ weight_by_stroke = "medium") then
    ["User interfaces", "Signage", "Information design"] else []
  let sScript := if style = "script" then
    ["Wedding invitations", "Certificates", "Greeting cards"] else []
  let lScript := if style = "script" then
    ["Long paragraphs of text", "Small size applications",
      "Technical documentation"] else []
  let sDeco := if style = "decorative" then
    ["Headlines", "Logo design", "Short display text"] else []
  let lDeco := if style = "decorative" then
    ["Body text", "Long-form content", "Small size applications"] else []
  { suitable_for :=
      (s1 ++ s2 ++ s3 ++ s4 ++ s5 ++ s6 ++ sSerif ++ sSans ++ sScript ++
        sDeco).dedup,
    less_suitable_for := (l1 ++ l2 ++ l3 ++ lScript ++ lDeco).dedup }

/-- The personality analysis result (`analyze_font_personality`'s dict). -/
structure PersonalityResult where
  traits : Traits
  emotional_description : String
  dominant_traits : List (String × ℚ)
  suitable_use_cases : UseCases
  deriving Repr, DecidableEq

/-- `analyze_font_personality`: sequential additive rules, clamp to [-2,2],
then description, dominant traits and use cases. -/
def analyze_font_personality (font_info : FontInfo) : PersonalityResult :=
  let clamped :=
    clampTraits
      (applyContrastRule font_info.contrast.contrast_type
        (applyAscDescRule font_info.vertical_metrics
          (applyXHeightRule font_info.vertical_metrics
            (applySpacingRules font_info.spacing.spacing_type
              (applyShapeRules font_info.shape.type
                (applyWidthRules font_info.width.description
                  (applyWeightRules font_info.weight.weight_by_stroke
                    (applyStyleRules font_info.style {}))))))))
  { traits := clamped,
    emotional_description := generate_emotional_description clamped,
    dominant_traits := dominantTraits clamped,
    suitable_use_cases := determine_suitable_use_cases font_info clamped }

/-! ## Top-level property extraction -/

/-- The full analysis output: the properties dict plus the `personality`
key added by `extract_font_properties`. -/
structure AnalysisResult where
  info : FontInfo
  personality : PersonalityResult
  deriving Repr, DecidableEq

/-- The OS/2 weight-class description map. -/
def weightClassDescription (weight_class : ℤ) : String :=
  if weight_class = 100 then "Thin"
  else if weight_class = 200 then "Extra Light"
  else if weight_class = 300 then "Light"
  else if weight_class = 400 then "Regular"
  else if weight_class = 500 then "Medium"
  else if weight_class = 600 then "Semi Bold"
  else if weight_class = 700 then "Bold"
  else if weight_class = 800 then "Extra Bold"
  else if weight_class = 900 then "Black"
  else "Custom"

/-- The OS/2 width-class description map. -/
def widthClassDescription (width_class : ℤ) : String :=
  if width_class = 1 then "Ultra Condensed"
  else if width_class = 2 then "Extra Condensed"
  else if width_class = 3 then "Condensed"
  else if width_class = 4 then "Semi Condensed"
  else if width_class = 5 then "Normal"
  else if width_class = 6 then "Semi Expanded"
  else if width_class = 7 then "Expanded"
  else if width_class = 8 then "Extra Expanded"
  else if width_class = 9 then "Ultra Expanded"
  else "Custom"

/-- `extract_font_properties`: run every analyzer and assemble the profile.
The two unguarded accesses (`font[\x27OS/2\x27]` for weight/width and
`font[\x27name\x27]` for the display name) raise on a missing table; the
function's own except-branch then returns `None` — modelled as `none`. -/
def extract_font_properties (M : NumModel) (ext : String) (font : Font) :
    Option AnalysisResult :=
  match font.os2 with
  | none => none
  | some os2 =>
    match font.name with
    | none => none
    | some nm =>
      let font_format := detect_font_format font ext
      let stroke_info := calculate_stroke_width M font
      let aspect_ratio_info := classify_font_width_by_aspect_ratio font
      let style := determine_font_style font
      let shape_info := analyze_glyph_shapes M font
      let spacing_info := analyze_spacing font
      let vertical_metrics := analyze_vertical_metrics font
      let contrast_info := analyze_stroke_contrast font
      let info : FontInfo :=
        { format := font_format,
          style := style,
          weight :=
            { cls := os2.usWeightClass,
              description := weightClassDescription os2.usWeightClass,
              stroke_width := stroke_info.stroke_width,
              normalized_stroke_width := stroke_info.normalized_stroke_width,
              weight_by_stroke := stroke_info.weight_by_stroke },
          width :=
            { cls := os2.usWidthClass,
              description := widthClassDescription os2.usWidthClass,
              aspect_ratio := aspect_ratio_info.aspect_ratio,
              width_by_aspect := aspect_ratio_info.width_by_aspect },
          shape := shape_info,
          spacing := spacing_info,
          vertical_metrics := vertical_metrics,
          contrast := contrast_info,
          font_name := nm.fullName.getD "Unknown" }
      some { info := info, personality := analyze_font_personality info }

/-! ## Derived quantities used by the verification -/

/-- The strength delta contributed by the weight rules. -/
def weightStrengthDelta (weight_by_stroke : String) : ℚ :=
  if weight_by_stroke = "thin" ∨ weight_by_stroke = "light" then -1
  else if weight_by_stroke = "medium" ∨ weight_by_stroke = "bold" then 1
  else if weight_by_stroke = "extra bold" ∨ weight_by_stroke = "black" then 2
  else 0

/-- The strength delta contributed by the shape rules. -/
def shapeStrengthDelta (shape_type : String) : ℚ :=
  if strContains shape_type "curvy" then 0
  else if strContains shape_type "angular" then 1
  else 0

/-- Replace the OS/2 weight-class scalar, leaving everything else intact. -/
def setWeightClass (w : ℤ) (font : Font) : Font :=
  { font with os2 := font.os2.map (fun o => { o with usWeightClass := w }) }

/-- The strength trait of an analysis result (0 when no profile exists). -/
def profileStrength : Option AnalysisResult → ℚ
  | some r => r.personality.traits.strength
  | none => 0

/-! ## Concrete fonts and feature bundles used by the claims -/

/-- The outer contour of the C5 scenario glyph: mean radius 500 about the
origin. -/
def outerOContour : List (ℤ × ℤ) := [(500, 0), (0, 500), (-500, 0), (0, -500)]

/-- The inner contour of the C5 scenario glyph: mean radius 380 about the
origin. -/
def innerOContour : List (ℤ × ℤ) := [(380, 0), (0, 380), (-380, 0), (0, -380)]

/-- The point list of the C5 scenario glyph (outer then inner contour). -/
def circularOCoords : List (ℤ × ℤ) := outerOContour ++ innerOContour

/-- C5 scenario glyph: the letter O as two square contours, outer mean
radius 500, inner mean radius 380, centred at the origin. -/
def circularOGlyph : Glyph :=
  { numberOfContours := 2
    coordinates := some circularOCoords
    flags := some [1, 1, 1, 1, 1, 1, 1, 1]
    endPtsOfContours := some [3, 7]
    bbox := some (-500, 500, -500, 500) }

/-- C5 scenario font: 1000 units per em, `O` the only mapped glyph. -/
def circularOFont : Font :=
  { name := some { familyName := some "Testfont", fullName := some "Testfont" }
    os2 := none
    head := some { unitsPerEm := 1000 }
    hhea := none
    post := none
    cmap := some [(79, "O")]
    glyf := some [("O", circularOGlyph)]
    cff := none
    hmtx := none }

/-- C4 font: an `O` glyph with bounding box 300 × 100, so the estimated
contrast ratio is max(45,15)/min(45,15) = 3. -/
def contrastRatio3Font : Font :=
  { name := none, os2 := none, head := none, hhea := none, post := none
    cmap := some [(79, "O")]
    glyf := some [("O",
      { numberOfContours := 2, coordinates := none, flags := none,
        endPtsOfContours := none, bbox := some (0, 300, 0, 100) })]
    cff := none, hmtx := none }

/-- C4 font: an `O` glyph with bounding box 500 × 100, contrast ratio 5. -/
def contrastRatio5Font : Font :=
  { name := none, os2 := none, head := none, hhea := none, post := none
    cmap := some [(79, "O")]
    glyf := some [("O",
      { numberOfContours := 2, coordinates := none, flags := none,
        endPtsOfContours := none, bbox := some (0, 500, 0, 100) })]
    cff := none, hmtx := none }

/-- C9 glyph: 4 contours and 31 points, scoring serif 2, script 0,
decorative 2 — a tie between serif and decorative. -/
def tieScoreGlyph : Glyph :=
  { numberOfContours := 4
    coordinates := some (List.replicate 31 ((0 : ℤ), (0 : ℤ)))
    flags := some (List.replicate 31 1)
    endPtsOfContours := some [7, 15, 23, 30]
    bbox := some (0, 30, 0, 0) }

/-- An OS/2 table with no optional attributes, width class 5. -/
def plainOS2 : OS2 :=
  { usWeightClass := 400, usWidthClass := 5, panose := none,
    sFamilyClass := none, sxHeight := none, sCapHeight := none,
    sTypoAscender := none, sTypoDescender := none }

/-- C3 counterexample font: empty cmap, but OS/2 width class 3 (mapped to
"Condensed"), so the width rules still fire. -/
def emptyCmapCondensedFont : Font :=
  { name := some { familyName := none, fullName := none }
    os2 := some { plainOS2 with usWidthClass := 3 }
    head := some { unitsPerEm := 1000 }
    hhea := none, post := none
    cmap := some []
    glyf := none, cff := none, hmtx := none }

/-- The family of fonts for the amended C3: empty cmap, neutral OS/2 width
class 5, no family name, no panose, no post/glyf/CFF/hmtx tables; the
remaining scalars are free. -/
def emptyCmapNeutralFont (wc : ℤ) (fc sx scap sta std : Option ℤ)
    (upem : ℤ) (hh : Option HheaTable) (full : Option String) : Font :=
  { name := some { familyName := none, fullName := full }
    os2 := some
      { usWeightClass := wc, usWidthClass := 5, panose := none,
        sFamilyClass := fc, sxHeight := sx, sCapHeight := scap,
        sTypoAscender := sta, sTypoDescender := std }
    head := some { unitsPerEm := upem }
    hhea := hh, post := none
    cmap := some []
    glyf := none, cff := none, hmtx := none }

/-- C1 counterexample font: every table present except OS/2. -/
def missingOS2Font : Font :=
  { name := some { familyName := some "Testfont", fullName := some "Testfont" }
    os2 := none
    head := some { unitsPerEm := 1000 }
    hhea := some { ascent := some 800, descent := some (-200) }
    post := some { isFixedPitch := false }
    cmap := some [(79, "O")]
    glyf := some [("O", circularOGlyph)]
    cff := none
    hmtx := some [("O", 600, 50)] }

/-- C10 witness font: no glyf table (CFF outlines), yet units-per-em,
x-height, cap-height and typographic ascender/descender all present. -/
def cffVerticalFont : Font :=
  { name := none
    os2 := some
      { usWeightClass := 400, usWidthClass := 5, panose := none,
        sFamilyClass := none, sxHeight := some 500, sCapHeight := some 700,
        sTypoAscender := some 800, sTypoDescender := some (-200) }
    head := some { unitsPerEm := 1000 }
    hhea := some { ascent := some 800, descent := some (-200) }
    post := none
    cmap := some []
    glyf := none
    cff := some { fontName := none }
    hmtx := none }

/-- C8 weight record: OS/2 class 700 with a given stroke-weight band. -/
def c8Weight (weight_by_stroke : String) : WeightInfo :=
  { cls := 700, description := "Bold", stroke_width := none,
    normalized_stroke_width := none, weight_by_stroke := weight_by_stroke }

/-- C8 feature bundle: weight class 700, width class 3 (Condensed), style
serif, contrast high contrast, everything else neutral/unknown. -/
def c8FontInfo (weight_by_stroke : String) : FontInfo :=
  { format := "TrueType"
    style := "serif"
    weight := c8Weight weight_by_stroke
    width :=
      { cls := 3, description := "Condensed", aspect_ratio := none,
        width_by_aspect := "unknown" }
    shape := { type := "unknown" }
    spacing := { width_type := "unknown", spacing_type := "unknown" }
    vertical_metrics := {}
    contrast := { contrast_ratio := some 3, contrast_type := "high contrast" }
    font_name := "Testfont" }

/-- A fully neutral feature bundle (used as a witness input). -/
def neutralFontInfo : FontInfo :=
  { format := "TrueType"
    style := "unknown"
    weight :=
      { cls := 400, description := "Regular", stroke_width := none,
        normalized_stroke_width := none, weight_by_stroke := "unknown" }
    width :=
      { cls := 5, description := "Normal", aspect_ratio := none,
        width_by_aspect := "unknown" }
    shape := { type := "unknown" }
    spacing := { width_type := "unknown", spacing_type := "unknown" }
    vertical_metrics := {}
    contrast := { contrast_ratio := none, contrast_type := "unknown" }
    font_name := "Testfont" }

/-! ## Basic lemmas about the clamp -/

theorem neg_two_le_clampTrait (v : ℚ) : -2 ≤ clampTrait v :=
  le_max_left _ _

theorem clampTrait_le_two (v : ℚ) : clampTrait v ≤ 2 :=
  max_le (by norm_num) (min_le_left _ _)

theorem le_clampTrait_of_le {c v : ℚ} (h : c ≤ v) (h2 : c ≤ 2) :
    c ≤ clampTrait v :=
  le_max_of_le_right (le_min h2 h)

theorem clampTrait_mono {x y : ℚ} (h : x ≤ y) :
    clampTrait x ≤ clampTrait y :=
  max_le_max le_rfl (min_le_min le_rfl h)

/-! ## Projection lemmas for the rule blocks -/

theorem applyStyleRules_strength (s : String) (t : Traits) :
    (applyStyleRules s t).strength = t.strength := by
  unfold applyStyleRules; split_ifs <;> rfl

theorem applyWeightRules_strength (w : String) (t : Traits) :
    (applyWeightRules w t).strength = t.strength + weightStrengthDelta w := by
  unfold applyWeightRules weightStrengthDelta
  split_ifs <;> ring

theorem applyWidthRules_strength (d : String) (t : Traits) :
    (applyWidthRules d t).strength = t.strength := by
  unfold applyWidthRules; split_ifs <;> rfl

theorem applyShapeRules_strength (sh : String) (t : Traits) :
    (applyShapeRules sh t).strength = t.strength + shapeStrengthDelta sh := by
  unfold applyShapeRules shapeStrengthDelta
  split_ifs <;> ring

theorem applySpacingRules_strength (st : String) (t : Traits) :
    (applySpacingRules st t).strength = t.strength := by
  unfold applySpacingRules; split_ifs <;> rfl

theorem applyXHeightRule_strength (vm : VerticalMetrics) (t : Traits) :
    (applyXHeightRule vm t).strength = t.strength := by
  unfold applyXHeightRule
  cases vm.x_height_class with
  | none => rfl
  | some c => dsimp only; split_ifs <;> rfl

theorem applyAscDescRule_strength (vm : VerticalMetrics) (t : Traits) :
    (applyAscDescRule vm t).strength = t.strength := by
  unfold applyAscDescRule
  cases vm.ascender_ratio with
  | none => rfl
  | some a =>
    cases vm.descender_ratio with
    | none => rfl
    | some d => dsimp only; split_ifs <;> rfl

theorem applyContrastRule_strength (c : String) (t : Traits) :
    (applyContrastRule c t).strength = t.strength := by
  unfold applyContrastRule; split_ifs <;> rfl

/-- The strength trait of the final profile is exactly the clamped sum of
the weight-rule and shape-rule deltas. -/
theorem personality_strength_formula (fi : FontInfo) :
    (analyze_font_personality fi).traits.strength =
      clampTrait (weightStrengthDelta fi.weight.weight_by_stroke +
        shapeStrengthDelta fi.shape.type) := by
  show clampTrait (applyContrastRule _ _).strength = _
  rw [applyContrastRule_strength, applyAscDescRule_strength,
    applyXHeightRule_strength, applySpacingRules_strength,
    applyShapeRules_strength, applyWidthRules_strength,
    applyWeightRules_strength, applyStyleRules_strength]
  norm_num

/-! ## Claim C2: every final trait lies in [-2, 2] -/

/-- C2: for every feature bundle and each of the 11 trait names, the trait
value in the final TraitVector produced by `analyze_font_personality`
satisfies -2 ≤ value ≤ 2 after the final clamping step. -/
theorem personality_traits_bounded (fi : FontInfo) (t : String)
    (h : t ∈ traitNames) :
    -2 ≤ getTrait (analyze_font_personality fi).traits t ∧
      getTrait (analyze_font_personality fi).traits t ≤ 2 := by
  have hc : ∀ v : ℚ, -2 ≤ clampTrait v ∧ clampTrait v ≤ 2 := fun v =>
    ⟨neg_two_le_clampTrait v, clampTrait_le_two v⟩
  have htr : (analyze_font_personality fi).traits =
      clampTraits (applyContrastRule fi.contrast.contrast_type
        (applyAscDescRule fi.vertical_metrics
          (applyXHeightRule fi.vertical_metrics
            (applySpacingRules fi.spacing.spacing_type
              (applyShapeRules fi.shape.type
                (applyWidthRules fi.width.description
                  (applyWeightRules fi.weight.weight_by_stroke
                    (applyStyleRules fi.style {})))))))) := rfl
  rw [htr]
  fin_cases h <;> exact hc _

/-- Witness for C2 at a concrete bundle and the trait "formality". -/
theorem personality_traits_bounded_witness :
    "formality" ∈ traitNames ∧
      (-2 ≤ getTrait (analyze_font_personality neutralFontInfo).traits
          "formality" ∧
        getTrait (analyze_font_personality neutralFontInfo).traits
          "formality" ≤ 2) :=
  ⟨by decide, personality_traits_bounded neutralFontInfo "formality" (by decide)⟩

/-! ## Claim C4: the contrast bands (code bug: no "high contrast" band) -/

theorem contrastRatio3Font_names :
    (([79, 111, 66, 98, 68, 100] : List ℕ).filterMap
      (fun u => List.lookup u [(79, "O")])) = ["O"] := by
  simp [List.lookup]

theorem contrastRatio3Font_glyph_ratio :
    contrastGlyphRatio [(79, "O")] "O"
      { numberOfContours := 2, coordinates := none, flags := none,
        endPtsOfContours := none, bbox := some (0, 300, 0, 100) } = some 3 := by
  norm_num [contrastGlyphRatio, List.lookup]

theorem contrastRatio5Font_glyph_ratio :
    contrastGlyphRatio [(79, "O")] "O"
      { numberOfContours := 2, coordinates := none, flags := none,
        endPtsOfContours := none, bbox := some (0, 500, 0, 100) } = some 5 := by
  norm_num [contrastGlyphRatio, List.lookup]

/-- C4 (code bug): the band chain labels every average ratio in [2.5, 4.0)
"extreme contrast" — not "high contrast", a label no analyzer path can
produce although `analyze_font_personality` tests for it — and an average
ratio ≥ 4.0 leaves `contrast_type` unassigned, so the analyzer returns its
except-branch "error" record. -/
theorem contrast_band_missing_high :
    contrastTypeOfRatio 3 = some "extreme contrast" ∧
      contrastTypeOfRatio 5 = none ∧
      analyze_stroke_contrast contrastRatio3Font =
        { contrast_ratio := some 3, contrast_type := "extreme contrast",
          sample_size := some 1 } ∧
      (analyze_stroke_contrast contrastRatio5Font).contrast_type = "error" := by
  refine ⟨by norm_num [contrastTypeOfRatio], by norm_num [contrastTypeOfRatio],
    ?_, ?_⟩
  · simp [analyze_stroke_contrast, contrastRatio3Font, contrastRatio3Font_names,
      contrastRatio3Font_glyph_ratio, List.lookup, contrastTypeOfRatio]
    norm_num
  · simp [analyze_stroke_contrast, contrastRatio5Font, contrastRatio3Font_names,
      contrastRatio5Font_glyph_ratio, List.lookup, contrastTypeOfRatio]
    norm_num

/-! ## Claim C5: the circular-glyph stroke scenario (0.12 lands in "bold") -/

theorem outerOContour_radius :
    contourMeanRadius qNumModel outerOContour = 500 := by
  have hd1 : distQ qNumModel ((500:ℚ), (0:ℚ)) (0 : ℚ × ℚ) = 500 := by
    norm_num [distQ, qNumModel, ratSqrt]; simp; norm_num
  have hd2 : distQ qNumModel ((0:ℚ), (500:ℚ)) (0 : ℚ × ℚ) = 500 := by
    norm_num [distQ, qNumModel, ratSqrt]; simp; norm_num
  have hd3 : distQ qNumModel ((-500:ℚ), (0:ℚ)) (0 : ℚ × ℚ) = 500 := by
    norm_num [distQ, qNumModel, ratSqrt]; simp; norm_num
  have hd4 : distQ qNumModel ((0:ℚ), (-500:ℚ)) (0 : ℚ × ℚ) = 500 := by
    norm_num [distQ, qNumModel, ratSqrt]; simp; norm_num
  have hco : contourCenter outerOContour = (0, 0) := by
    norm_num [contourCenter, outerOContour]
  simp only [contourMeanRadius, hco]
  simp [outerOContour, hd1, hd2, hd3, hd4]
  norm_num

theorem innerOContour_radius :
    contourMeanRadius qNumModel innerOContour = 380 := by
  have he1 : distQ qNumModel ((380:ℚ), (0:ℚ)) (0 : ℚ × ℚ) = 380 := by
    norm_num [distQ, qNumModel, ratSqrt]; simp; norm_num
  have he2 : distQ qNumModel ((0:ℚ), (380:ℚ)) (0 : ℚ × ℚ) = 380 := by
    norm_num [distQ, qNumModel, ratSqrt]; simp; norm_num
  have he3 : distQ qNumModel ((-380:ℚ), (0:ℚ)) (0 : ℚ × ℚ) = 380 := by
    norm_num [distQ, qNumModel, ratSqrt]; simp; norm_num
  have he4 : distQ qNumModel ((0:ℚ), (-380:ℚ)) (0 : ℚ × ℚ) = 380 := by
    norm_num [distQ, qNumModel, ratSqrt]; simp; norm_num
  have hci : contourCenter innerOContour = (0, 0) := by
    norm_num [contourCenter, innerOContour]
  simp only [contourMeanRadius, hci]
  simp [innerOContour, he1, he2, he3, he4]
  norm_num

theorem circularO_slices :
    contourSlice circularOCoords 0 3 = some outerOContour ∧
      contourSlice circularOCoords 4 7 = some innerOContour := by
  constructor <;>
    simp [contourSlice, circularOCoords, outerOContour, innerOContour]

theorem circularO_circular_measure :
    measure_circular_glyph_stroke_width qNumModel circularOGlyph
      circularOCoords = some 120 := by
  have hno : outerOContour ≠ [] := by simp [outerOContour]
  have hni : innerOContour ≠ [] := by simp [innerOContour]
  simp only [measure_circular_glyph_stroke_width, circularOGlyph]
  norm_num [circularO_slices.1, circularO_slices.2, hno, hni,
    outerOContour_radius, innerOContour_radius]

theorem circularO_xs :
    circularOCoords.map (fun c => ((c.1 : ℤ) : ℚ)) =
      [500, 0, -500, 0, 380, 0, -380, 0] := by
  norm_num [circularOCoords, outerOContour, innerOContour]

theorem circularO_ys :
    circularOCoords.map (fun c => ((c.2 : ℤ) : ℚ)) =
      [0, 500, 0, -500, 0, 380, 0, -380] := by
  norm_num [circularOCoords, outerOContour, innerOContour]

theorem circularOGlyph_identify :
    identify_glyph_type circularOGlyph 1000 1000 = "circular" := by
  norm_num [identify_glyph_type, circularOGlyph]

theorem circularO_measure :
    measure_glyph_stroke_width qNumModel circularOGlyph = some 120 := by
  have hco : circularOGlyph.coordinates = some circularOCoords := rfl
  have hfl : circularOGlyph.flags = some [1, 1, 1, 1, 1, 1, 1, 1] := rfl
  have hnc : circularOGlyph.numberOfContours = 2 := rfl
  have hxlen : circularOCoords.length = 8 := by
    norm_num [circularOCoords, outerOContour, innerOContour]
  have hmax : listMax [(500:ℚ), 0, -500, 0, 380, 0, -380, 0] = 500 := by
    norm_num [listMax, max_def]
  have hmin : listMin [(500:ℚ), 0, -500, 0, 380, 0, -380, 0] = -500 := by
    norm_num [listMin, min_def]
  have hymax : listMax [(0:ℚ), 500, 0, -500, 0, 380, 0, -380] = 500 := by
    norm_num [listMax, max_def]
  have hymin : listMin [(0:ℚ), 500, 0, -500, 0, 380, 0, -380] = -500 := by
    norm_num [listMin, min_def]
  have harg : (500:ℚ) - -500 = 1000 := by norm_num
  have hc1 : ((8:ℕ) = 0) = False := by norm_num
  have hle : ((1000:ℚ) ≤ 0) = False := by norm_num
  have hc3 : ((8:ℕ) ≠ 8) = False := by norm_num
  have h22 : (((2:ℤ)) = 2) = True := by norm_num
  have hs1 : (("circular":String) = "vertical_stroke") = False := by simp
  have hs2 : (("circular":String) = "horizontal_stroke") = False := by simp
  have hs3 : (("circular":String) = "circular") = True := by simp
  simp only [measure_glyph_stroke_width, hco, hfl, circularO_xs, circularO_ys,
    hmax, hmin, hymax, hymin, hxlen, List.length_cons, List.length_nil,
    harg, hc1, hle, hc3, or_self, circularOGlyph_identify, hnc, h22,
    hs1, hs2, hs3, if_false, if_true, and_true, true_and, and_self]
  exact circularO_circular_measure

/-- Symbolic evaluation of `calculate_stroke_width` along the successful
glyf path with exactly one measurable probe glyph, before any concrete
arithmetic is substituted. -/
theorem calculate_stroke_width_single_glyf (M : NumModel) (font : Font)
    (head : HeadTable) (cmap : List (ℕ × String))
    (glyfT : List (String × Glyph)) (gn : String) (w : ℚ)
    (hh : font.head = some head)
    (hc : font.cmap = some cmap)
    (hg : font.glyf = some glyfT)
    (hne : (cmap = []) = False)
    (hnames : ([72, 73, 79, 110, 111, 108] : List ℕ).filterMap
        (fun u => List.lookup u cmap) = [gn])
    (hnn : (([gn] : List String) = []) = False)
    (hw : strokeWidthOfName M glyfT gn = some w)
    (hupem : (head.unitsPerEm = 0) = False) :
    calculate_stroke_width M font =
      { stroke_width := some w,
        normalized_stroke_width := some (w / (head.unitsPerEm : ℚ)),
        weight_by_stroke :=
          classify_weight_by_normalized_stroke
            (w / (head.unitsPerEm : ℚ)) } := by
  unfold calculate_stroke_width
  rw [hh, hc, hg]
  simp only [hne, hnames, hnn, hw, hupem, if_false, List.filterMap_cons,
    List.filterMap_nil, List.sum_cons, List.sum_nil, add_zero,
    List.length_cons, List.length_nil, zero_add, Nat.cast_one, div_one]

theorem circularOFont_names :
    (([72, 73, 79, 110, 111, 108] : List ℕ).filterMap
      (fun u => List.lookup u [(79, "O")])) = ["O"] := by
  simp [List.lookup]

theorem swn_lookup :
    List.lookup "O" [("O", circularOGlyph)] = some circularOGlyph := by
  simp [List.lookup]

theorem swn_O :
    strokeWidthOfName qNumModel [("O", circularOGlyph)] "O" = some 120 := by
  have hnc : circularOGlyph.numberOfContours = 2 := rfl
  have hgt : ((120:ℚ) > 0) = True := by norm_num
  have hle : ((2:ℤ) ≤ 0) = False := by norm_num
  have hse : (("O":String) = "") = False := by simp
  unfold strokeWidthOfName
  rw [swn_lookup]
  simp only [hnc, circularO_measure, hgt, hle, hse, if_false, if_true]

theorem circularOFont_stroke :
    calculate_stroke_width qNumModel circularOFont =
      { stroke_width := some 120, normalized_stroke_width := some (3 / 25),
        weight_by_stroke := "bold" } := by
  have h := calculate_stroke_width_single_glyf qNumModel circularOFont
    ⟨1000⟩ [(79, "O")] [("O", circularOGlyph)] "O" 120
    rfl rfl rfl (by simp) circularOFont_names (by simp) swn_O (by norm_num)
  rw [h]
  have hq : ((120:ℚ)) / (((⟨1000⟩ : HeadTable).unitsPerEm : ℚ)) = 3 / 25 := by
    norm_num
  rw [hq]
  have hb : classify_weight_by_normalized_stroke (3 / 25) = "bold" := by
    norm_num [classify_weight_by_normalized_stroke]
  rw [hb]

/-- C5 counterexample: on the scenario font (outer mean radius 500, inner
380, 1000 upem) the estimator does return stroke width 120 and normalized
width 0.12, but 0.12 is not below the 0.12 "medium" threshold, so the weight
band is not "medium". -/
theorem circular_O_stroke_not_medium :
    calculate_stroke_width qNumModel circularOFont =
      { stroke_width := some 120, normalized_stroke_width := some (3 / 25),
        weight_by_stroke := "bold" } ∧
      (calculate_stroke_width qNumModel circularOFont).weight_by_stroke ≠
        "medium" := by
  refine ⟨circularOFont_stroke, ?_⟩
  rw [circularOFont_stroke]
  simp

/-- C5 amended: the scenario yields stroke width 120, normalized 0.12, and
weight band "bold" (the "medium" band is the half-open interval
[0.09, 0.12)). -/
theorem circular_O_stroke_bold :
    calculate_stroke_width qNumModel circularOFont =
      { stroke_width := some 120, normalized_stroke_width := some (3 / 25),
        weight_by_stroke := "bold" } ∧
      classify_weight_by_normalized_stroke (12 / 100) = "bold" :=
  ⟨circularOFont_stroke, by norm_num [classify_weight_by_normalized_stroke]⟩

/-! ## Claim C6: the shape-ratio scenario (0.25 is already "angular") -/

/-- C6 counterexample: a curve ratio of 10/40 = 0.25 is not in the
"slightly curvy" band — the ratio bands assign "angular" directly, because
"slightly curvy" requires a ratio strictly above 0.3. -/
theorem ratio_quarter_not_slightly_curvy :
    classifyShapeFromRatio (10 / 40) = "angular" ∧
      classifyShapeFromRatio (10 / 40) ≠ "slightly curvy" := by
  have h : classifyShapeFromRatio (10 / 40) = "angular" := by
    norm_num [classifyShapeFromRatio]
  exact ⟨h, by rw [h]; simp⟩

/-- C6 amended: with on-curve count 40 and off-curve count 10 the ratio
0.25 maps to "angular" directly, and the over-60-degree angle refinement
never shifts past "angular", so the final classification is "angular". -/
theorem ratio_quarter_refinement_angular :
    classifyShapeFromRatio ((10 : ℚ) / 40) = "angular" ∧
      shiftTowardAngular (classifyShapeFromRatio ((10 : ℚ) / 40)) =
        "angular" := by
  have h : classifyShapeFromRatio ((10 : ℚ) / 40) = "angular" := by
    norm_num [classifyShapeFromRatio]
  exact ⟨h, by rw [h]; simp [shiftTowardAngular]⟩

/-! ## Claim C10: CFF fonts get only the vertical-metrics error record -/

/-- C10: a font without a glyf table gets the single error record from
`analyze_vertical_metrics` — even when every scalar is present in
OS/2/head/hhea — and on that record neither the x-height rule nor the
ascender/descender rule changes any trait. -/
theorem cff_vertical_metrics_error_rules_skip (font : Font) (t : Traits)
    (h : font.glyf = none) :
    analyze_vertical_metrics font = vmMissingRecord ∧
      applyXHeightRule (analyze_vertical_metrics font) t = t ∧
      applyAscDescRule (analyze_vertical_metrics font) t = t := by
  have h1 : analyze_vertical_metrics font = vmMissingRecord := by
    unfold analyze_vertical_metrics
    rw [h]
  refine ⟨h1, ?_, ?_⟩ <;> rw [h1] <;> rfl

/-- Witness for C10: a concrete glyf-less font whose OS/2, head and hhea
tables carry every vertical scalar. -/
theorem cff_vertical_metrics_error_rules_skip_witness :
    cffVerticalFont.glyf = none ∧
      (analyze_vertical_metrics cffVerticalFont = vmMissingRecord ∧
        applyXHeightRule (analyze_vertical_metrics cffVerticalFont) {} = {} ∧
        applyAscDescRule (analyze_vertical_metrics cffVerticalFont) {} = {}) :=
  ⟨rfl, cff_vertical_metrics_error_rules_skip cffVerticalFont {} rfl⟩

/-! ## Claim C1: when the whole profile exists -/

/-- C1 counterexample: a font with every table except OS/2 produces no
profile at all — `extract_font_properties` returns `None`, because its
unguarded `font[\x27OS/2\x27]` access raises before any analyzer output is
assembled. -/
theorem extract_missing_os2_counterexample :
    missingOS2Font.os2 = none ∧
      missingOS2Font.name.isSome = true ∧
      missingOS2Font.head.isSome = true ∧
      missingOS2Font.cmap.isSome = true ∧
      missingOS2Font.glyf.isSome = true ∧
      extract_font_properties qNumModel ".ttf" missingOS2Font = none := by
  refine ⟨rfl, rfl, rfl, rfl, rfl, rfl⟩

/-- C1 amended: every analyzer is total (a Lean function), and the whole
profile exists exactly when both the OS/2 and name tables are present; a
missing OS/2 (or name) aborts the analysis with no profile. -/
theorem extract_profile_exists_iff (M : NumModel) (ext : String)
    (font : Font) :
    (extract_font_properties M ext font).isSome =
      (font.os2.isSome && font.name.isSome) := by
  unfold extract_font_properties
  cases font.os2 <;> cases font.name <;> rfl


/-! ## Claim C9: the glyph-score decision -/

theorem tieScoreGlyph_serif : has_serif_features tieScoreGlyph = 2 := by
  simp only [has_serif_features, tieScoreGlyph, List.length_replicate]
  norm_num

theorem tieScoreGlyph_script : has_script_features tieScoreGlyph = 0 := by
  simp only [has_script_features, tieScoreGlyph, List.length_replicate]
  norm_num

theorem tieScoreGlyph_decorative :
    has_decorative_features tieScoreGlyph = 2 := by
  simp only [has_decorative_features, tieScoreGlyph, List.length_replicate]
  norm_num

/-- C9 counterexample: serif score 2 and decorative score 2 tie, yet the
decision step returns "serif" — the serif branch only requires
`serif >= 2 and serif > script`, not strict dominance over decorative.
`tieScoreGlyph` realizes exactly these scores. -/
theorem style_scores_tie_serif :
    has_serif_features tieScoreGlyph = 2 ∧
      has_script_features tieScoreGlyph = 0 ∧
      has_decorative_features tieScoreGlyph = 2 ∧
      styleScoresDecision 2 0 2 = "serif" ∧
      ¬((2 : ℤ) > (2 : ℤ)) := by
  refine ⟨tieScoreGlyph_serif, tieScoreGlyph_script, tieScoreGlyph_decorative,
    ?_, by norm_num⟩
  norm_num [styleScoresDecision]

/-- C9 amended: the exact ordered characterization of the decision chain:
script needs its threshold and strict dominance over both others;
decorative needs only its threshold and strict dominance over serif;
serif needs only its threshold and strict dominance over script. -/
theorem styleScoresDecision_spec (s c d : ℤ) :
    (styleScoresDecision s c d = "script" ↔
        c ≥ 3 ∧ c > s ∧ c > d) ∧
      (styleScoresDecision s c d = "decorative" ↔
        ¬(c ≥ 3 ∧ c > s ∧ c > d) ∧ d ≥ 3 ∧ d > s) ∧
      (styleScoresDecision s c d = "serif" ↔
        ¬(c ≥ 3 ∧ c > s ∧ c > d) ∧ ¬(d ≥ 3 ∧ d > s) ∧ s ≥ 2 ∧ s > c) ∧
      (styleScoresDecision s c d = "sans-serif" ↔
        ¬(c ≥ 3 ∧ c > s ∧ c > d) ∧ ¬(d ≥ 3 ∧ d > s) ∧
          ¬(s ≥ 2 ∧ s > c)) := by
  unfold styleScoresDecision
  split_ifs with h1 h2 h3 <;> simp_all

/-! ## Claim C7: strength is monotone in the OS/2 weight class -/

theorem setWeightClass_os2_isSome (w : ℤ) (font : Font) :
    (setWeightClass w font).os2.isSome = font.os2.isSome := by
  cases h : font.os2 <;> simp [setWeightClass, h]

theorem setWeightClass_name (w : ℤ) (font : Font) :
    (setWeightClass w font).name = font.name := rfl

theorem analyze_glyph_shapes_weight_irrel (M : NumModel) (font : Font)
    (w w' : ℤ) :
    analyze_glyph_shapes M (setWeightClass w font) =
      analyze_glyph_shapes M (setWeightClass w' font) := by
  obtain ⟨nm, os2, hd, hh, po, cm, gl, cf, hm⟩ := font
  cases os2 <;> rfl

theorem calculate_stroke_width_weight_mono (M : NumModel) (font : Font) :
    weightStrengthDelta
        (calculate_stroke_width M (setWeightClass 300 font)).weight_by_stroke ≤
      weightStrengthDelta
        (calculate_stroke_width M (setWeightClass 800 font)).weight_by_stroke := by
  obtain ⟨nm, os2, hd, hh, po, cm, gl, cf, hm⟩ := font
  cases os2 with
  | none =>
    simp only [setWeightClass, Option.map]
    exact le_rfl
  | some o =>
    cases gl with
    | some glyfT =>
      simp only [calculate_stroke_width, setWeightClass, Option.map]
      exact le_rfl
    | none =>
      cases cf with
      | none =>
        simp only [calculate_stroke_width, setWeightClass, Option.map]
        exact le_rfl
      | some c =>
        cases hd with
        | none =>
          simp only [calculate_stroke_width, setWeightClass, Option.map]
          exact le_rfl
        | some h =>
          cases cm with
          | none =>
            simp only [calculate_stroke_width, setWeightClass, Option.map]
            exact le_rfl
          | some l =>
            by_cases hl : l = []
            · subst hl
              simp only [calculate_stroke_width, setWeightClass, Option.map]
              exact le_rfl
            · by_cases hn : (([72, 73, 79, 110, 111, 108] : List ℕ).filterMap
                  (fun u => List.lookup u l)) = []
              · simp only [calculate_stroke_width, setWeightClass,
                  Option.map, if_neg hl, if_pos hn]
                exact le_rfl
              · have h300 : classify_weight_by_value 300 = "light" := by
                  norm_num [classify_weight_by_value]
                have h800 : classify_weight_by_value 800 = "extra bold" := by
                  norm_num [classify_weight_by_value]
                simp only [calculate_stroke_width, setWeightClass,
                  Option.map, if_neg hl, if_neg hn, h300, h800]
                simp [weightStrengthDelta]
                norm_num

theorem profileStrength_extract (M : NumModel) (ext : String) (font : Font) :
    profileStrength (extract_font_properties M ext font) =
      if font.os2.isSome ∧ font.name.isSome then
        clampTrait
          (weightStrengthDelta
              (calculate_stroke_width M font).weight_by_stroke +
            shapeStrengthDelta (analyze_glyph_shapes M font).type)
      else 0 := by
  obtain ⟨nm, os2, hd, hh, po, cm, gl, cf, hm⟩ := font
  cases os2 with
  | none => simp [extract_font_properties, profileStrength]
  | some o =>
    cases nm with
    | none => simp [extract_font_properties, profileStrength]
    | some nmv =>
      simp only [extract_font_properties, profileStrength,
        personality_strength_formula, Option.isSome_some, true_and, if_true]

/-- C7: replacing the OS/2 weight-class scalar 300 by 800 while keeping
every other table byte identical never decreases the profile strength
trait. -/
theorem strength_monotone_weight_class (M : NumModel) (ext : String)
    (font : Font) :
    profileStrength
        (extract_font_properties M ext (setWeightClass 300 font)) ≤
      profileStrength
        (extract_font_properties M ext (setWeightClass 800 font)) := by
  rw [profileStrength_extract, profileStrength_extract,
    setWeightClass_os2_isSome, setWeightClass_os2_isSome,
    setWeightClass_name, setWeightClass_name]
  by_cases h : font.os2.isSome = true ∧ font.name.isSome = true
  · rw [if_pos h, if_pos h]
    apply clampTrait_mono
    have hs := analyze_glyph_shapes_weight_irrel M font 300 800
    rw [hs]
    exact add_le_add_right (calculate_stroke_width_weight_mono M font) _
  · rw [if_neg h, if_neg h]

/-! ## Claim C3: an empty cmap and the neutral description -/

theorem c3_stroke :
    calculate_stroke_width qNumModel emptyCmapCondensedFont =
      strokeUnknown "No cmap table found" := by
  simp [calculate_stroke_width, emptyCmapCondensedFont, strokeUnknown]

theorem c3_aspect :
    classify_font_width_by_aspect_ratio emptyCmapCondensedFont =
      { aspect_ratio := none, width_by_aspect := "unknown",
        reason := some "No glyf table (possibly CFF/OTF)" } := rfl

theorem c3_shapes :
    analyze_glyph_shapes qNumModel emptyCmapCondensedFont =
      { type := "unknown", reason := some "No cmap table found" } := by
  simp [analyze_glyph_shapes, emptyCmapCondensedFont]

theorem c3_style :
    determine_font_style emptyCmapCondensedFont = "unknown" := by
  simp [determine_font_style, emptyCmapCondensedFont, panoseStyle, plainOS2]

theorem c3_spacing :
    analyze_spacing emptyCmapCondensedFont =
      { width_type := "unknown", spacing_type := "unknown",
        reason := some "No hmtx table" } := rfl

theorem c3_vm :
    analyze_vertical_metrics emptyCmapCondensedFont = vmMissingRecord := rfl

theorem c3_contrast :
    analyze_stroke_contrast emptyCmapCondensedFont =
      { contrast_ratio := none, contrast_type := "unknown",
        reason := some "No glyf table" } := rfl

theorem c3_widthdesc : widthClassDescription 3 = "Condensed" := by
  norm_num [widthClassDescription]

theorem c3_traits :
    applyContrastRule "unknown"
        (applyAscDescRule vmMissingRecord
          (applyXHeightRule vmMissingRecord
            (applySpacingRules "unknown"
              (applyShapeRules "unknown"
                (applyWidthRules "Condensed"
                  (applyWeightRules "unknown"
                    (applyStyleRules "unknown" {}))))))) =
      ({ elegance := -(1/2), modernity := 1/2 } : Traits) := by
  have hsty : applyStyleRules "unknown" ({} : Traits) = {} := by
    simp [applyStyleRules]
  have hwt : applyWeightRules "unknown" ({} : Traits) = {} := by
    simp [applyWeightRules]
  have hcond : strContains (strToLower "Condensed") "condensed" = true := by
    decide
  have hwd : applyWidthRules "Condensed" ({} : Traits) =
      ({ elegance := -(1/2), modernity := 1/2 } : Traits) := by
    simp [applyWidthRules, hcond]
    norm_num
  have hcu : strContains "unknown" "curvy" = false := by decide
  have han : strContains "unknown" "angular" = false := by decide
  have hsh : applyShapeRules "unknown"
      (({ elegance := -(1/2), modernity := 1/2 } : Traits)) =
      ({ elegance := -(1/2), modernity := 1/2 } : Traits) := by
    simp [applyShapeRules, hcu, han]
  have hsp : applySpacingRules "unknown"
      (({ elegance := -(1/2), modernity := 1/2 } : Traits)) =
      ({ elegance := -(1/2), modernity := 1/2 } : Traits) := by
    simp [applySpacingRules]
  have hxh : applyXHeightRule vmMissingRecord
      (({ elegance := -(1/2), modernity := 1/2 } : Traits)) =
      ({ elegance := -(1/2), modernity := 1/2 } : Traits) := rfl
  have had : applyAscDescRule vmMissingRecord
      (({ elegance := -(1/2), modernity := 1/2 } : Traits)) =
      ({ elegance := -(1/2), modernity := 1/2 } : Traits) := rfl
  have hct : applyContrastRule "unknown"
      (({ elegance := -(1/2), modernity := 1/2 } : Traits)) =
      ({ elegance := -(1/2), modernity := 1/2 } : Traits) := by
    simp [applyContrastRule]
  rw [hsty, hwt, hwd, hsh, hsp, hxh, had, hct]

theorem c3_clamped :
    clampTraits ({ elegance := -(1/2), modernity := 1/2 } : Traits) =
      ({ elegance := -(1/2), modernity := 1/2 } : Traits) := by
  norm_num [clampTraits, clampTrait]

theorem c3_sentence :
    generate_emotional_description
        ({ elegance := -(1/2), modernity := 1/2 } : Traits) =
      "This font prioritizes function over aesthetic refinement and feels current and up-to-date." := by
  have hph : descPhrases ({ elegance := -(1/2), modernity := 1/2 } : Traits) =
      ["prioritizes function over aesthetic refinement",
        "feels current and up-to-date"] := by
    simp [descPhrases, phraseFor]
    norm_num
  unfold generate_emotional_description
  rw [hph]
  simp

/-- C3 counterexample: on an empty-cmap font with OS/2 width class 3 the
stroke-width, aspect-ratio and shape analyzers do return `unknown` records
with non-empty reasons, but the final description is not the neutral
sentence — the width rules still fire on the "Condensed" width class. -/
theorem empty_cmap_condensed_not_neutral :
    calculate_stroke_width qNumModel emptyCmapCondensedFont =
        strokeUnknown "No cmap table found" ∧
      classify_font_width_by_aspect_ratio emptyCmapCondensedFont =
        { aspect_ratio := none, width_by_aspect := "unknown",
          reason := some "No glyf table (possibly CFF/OTF)" } ∧
      analyze_glyph_shapes qNumModel emptyCmapCondensedFont =
        { type := "unknown", reason := some "No cmap table found" } ∧
      ((extract_font_properties qNumModel ".ttf"
            emptyCmapCondensedFont).map
          (fun r => r.personality.emotional_description)) =
        some "This font prioritizes function over aesthetic refinement and feels current and up-to-date." ∧
      "This font prioritizes function over aesthetic refinement and feels current and up-to-date." ≠
        neutralDescription := by
  refine ⟨c3_stroke, c3_aspect, c3_shapes, ?_, by simp [neutralDescription]⟩
  have hos2 : emptyCmapCondensedFont.os2 =
      some { plainOS2 with usWidthClass := 3 } := rfl
  have hname : emptyCmapCondensedFont.name =
      some { familyName := none, fullName := none } := rfl
  simp only [extract_font_properties, hos2, hname, Option.map,
    analyze_font_personality, c3_style, c3_stroke, c3_widthdesc, c3_shapes,
    c3_spacing, c3_vm, c3_contrast, strokeUnknown]
  rw [c3_traits, c3_clamped, c3_sentence]


theorem c3n_stroke (M : NumModel) (wc : ℤ) (fc sx scap sta std : Option ℤ)
    (upem : ℤ) (hh : Option HheaTable) (full : Option String) :
    calculate_stroke_width M
        (emptyCmapNeutralFont wc fc sx scap sta std upem hh full) =
      strokeUnknown "No cmap table found" := by
  simp [calculate_stroke_width, emptyCmapNeutralFont, strokeUnknown]

theorem c3n_shapes (M : NumModel) (wc : ℤ) (fc sx scap sta std : Option ℤ)
    (upem : ℤ) (hh : Option HheaTable) (full : Option String) :
    analyze_glyph_shapes M
        (emptyCmapNeutralFont wc fc sx scap sta std upem hh full) =
      { type := "unknown", reason := some "No cmap table found" } := by
  simp [analyze_glyph_shapes, emptyCmapNeutralFont]

theorem c3n_style (wc : ℤ) (fc sx scap sta std : Option ℤ)
    (upem : ℤ) (hh : Option HheaTable) (full : Option String) :
    determine_font_style
        (emptyCmapNeutralFont wc fc sx scap sta std upem hh full) =
      "unknown" := by
  simp [determine_font_style, emptyCmapNeutralFont, panoseStyle]

theorem c3n_widthdesc : widthClassDescription 5 = "Normal" := by
  norm_num [widthClassDescription]

theorem c3n_traits :
    applyContrastRule "unknown"
        (applyAscDescRule vmMissingRecord
          (applyXHeightRule vmMissingRecord
            (applySpacingRules "unknown"
              (applyShapeRules "unknown"
                (applyWidthRules "Normal"
                  (applyWeightRules "unknown"
                    (applyStyleRules "unknown" {}))))))) = ({} : Traits) := by
  have hsty : applyStyleRules "unknown" ({} : Traits) = {} := by
    simp [applyStyleRules]
  have hwt : applyWeightRules "unknown" ({} : Traits) = {} := by
    simp [applyWeightRules]
  have hc1 : strContains (strToLower "Normal") "condensed" = false := by decide
  have hc2 : strContains (strToLower "Normal") "expanded" = false := by decide
  have hwd : applyWidthRules "Normal" ({} : Traits) = {} := by
    simp [applyWidthRules, hc1, hc2]
  have hcu : strContains "unknown" "curvy" = false := by decide
  have han : strContains "unknown" "angular" = false := by decide
  have hsh : applyShapeRules "unknown" ({} : Traits) = {} := by
    simp [applyShapeRules, hcu, han]
  have hsp : applySpacingRules "unknown" ({} : Traits) = {} := by
    simp [applySpacingRules]
  have hct : applyContrastRule "unknown" ({} : Traits) = {} := by
    simp [applyContrastRule]
  rw [hsty, hwt, hwd, hsh, hsp]
  rw [show applyXHeightRule vmMissingRecord ({} : Traits) = {} from rfl]
  rw [show applyAscDescRule vmMissingRecord ({} : Traits) = {} from rfl]
  rw [hct]

theorem c3n_clamped : clampTraits ({} : Traits) = ({} : Traits) := by
  norm_num [clampTraits, clampTrait]

theorem c3n_sentence :
    generate_emotional_description ({} : Traits) = neutralDescription := by
  have hph : descPhrases ({} : Traits) = [] := by
    simp [descPhrases, phraseFor]
    norm_num
  unfold generate_emotional_description
  rw [hph]
  rfl

/-- C3 amended: on every font of the neutral empty-cmap family (empty cmap,
neutral OS/2 width class 5, no family name, no post/glyf/CFF/hmtx) the
stroke-width, aspect-ratio and shape analyzers return `unknown` records with
non-empty reasons, and the profile description is the default neutral
sentence. -/
theorem empty_cmap_neutral_family (M : NumModel) (ext : String) (wc : ℤ)
    (fc sx scap sta std : Option ℤ) (upem : ℤ) (hh : Option HheaTable)
    (full : Option String) :
    calculate_stroke_width M
        (emptyCmapNeutralFont wc fc sx scap sta std upem hh full) =
      strokeUnknown "No cmap table found" ∧
    classify_font_width_by_aspect_ratio
        (emptyCmapNeutralFont wc fc sx scap sta std upem hh full) =
      { aspect_ratio := none, width_by_aspect := "unknown",
        reason := some "No glyf table (possibly CFF/OTF)" } ∧
    analyze_glyph_shapes M
        (emptyCmapNeutralFont wc fc sx scap sta std upem hh full) =
      { type := "unknown", reason := some "No cmap table found" } ∧
    ((extract_font_properties M ext
          (emptyCmapNeutralFont wc fc sx scap sta std upem hh full)).map
        (fun r => r.personality.emotional_description)) =
      some neutralDescription := by
  refine ⟨c3n_stroke M wc fc sx scap sta std upem hh full, rfl,
    c3n_shapes M wc fc sx scap sta std upem hh full, ?_⟩
  have hos2 : (emptyCmapNeutralFont wc fc sx scap sta std upem hh full).os2 =
      some
        { usWeightClass := wc, usWidthClass := 5, panose := none,
          sFamilyClass := fc, sxHeight := sx, sCapHeight := scap,
          sTypoAscender := sta, sTypoDescender := std } := rfl
  have hname : (emptyCmapNeutralFont wc fc sx scap sta std upem hh full).name =
      some { familyName := none, fullName := full } := rfl
  have hvm : analyze_vertical_metrics
      (emptyCmapNeutralFont wc fc sx scap sta std upem hh full) =
      vmMissingRecord := rfl
  have hspc : analyze_spacing
      (emptyCmapNeutralFont wc fc sx scap sta std upem hh full) =
      { width_type := "unknown", spacing_type := "unknown",
        reason := some "No hmtx table" } := rfl
  have hcon : analyze_stroke_contrast
      (emptyCmapNeutralFont wc fc sx scap sta std upem hh full) =
      { contrast_ratio := none, contrast_type := "unknown",
        reason := some "No glyf table" } := rfl
  simp only [extract_font_properties, hos2, hname, Option.map,
    analyze_font_personality, c3n_style, c3n_stroke, c3n_widthdesc,
    c3n_shapes, hspc, hvm, hcon, strokeUnknown]
  rw [c3n_traits, c3n_clamped, c3n_sentence]

/-! ## Claim C8: serif + high contrast and the use-case table -/

theorem applyWidthRules_formality (d : String) (p : Traits) :
    (applyWidthRules d p).formality = p.formality := by
  unfold applyWidthRules
  split_ifs <;> rfl

theorem applySpacingRules_formality (st : String) (p : Traits) :
    (applySpacingRules st p).formality = p.formality := by
  unfold applySpacingRules
  split_ifs <;> rfl

theorem applyShapeRules_formality_ge (sh : String) (p : Traits) :
    p.formality ≤ (applyShapeRules sh p).formality := by
  unfold applyShapeRules
  split_ifs <;> simp <;> linarith

theorem applyXHeightRule_formality_ge (vm : VerticalMetrics) (p : Traits) :
    p.formality ≤ (applyXHeightRule vm p).formality := by
  unfold applyXHeightRule
  cases hx : vm.x_height_class with
  | none => exact le_rfl
  | some c =>
    simp only []
    split_ifs <;> simp <;> linarith

theorem applyAscDescRule_formality_ge (vm : VerticalMetrics) (p : Traits) :
    p.formality ≤ (applyAscDescRule vm p).formality := by
  unfold applyAscDescRule
  cases ha : vm.ascender_ratio with
  | none => exact le_rfl
  | some a =>
    cases hd : vm.descender_ratio with
    | none => exact le_rfl
    | some d =>
      simp only []
      split_ifs <;> simp <;> linarith

theorem applyShapeRules_elegance (sh : String) (p : Traits) :
    (applyShapeRules sh p).elegance = p.elegance := by
  unfold applyShapeRules
  split_ifs <;> rfl

theorem applyWidthRules_elegance_ge (d : String) (p : Traits) :
    p.elegance - 1/2 ≤ (applyWidthRules d p).elegance := by
  unfold applyWidthRules
  split_ifs <;> simp <;> linarith

theorem applySpacingRules_elegance_ge (st : String) (p : Traits) :
    p.elegance ≤ (applySpacingRules st p).elegance := by
  unfold applySpacingRules
  split_ifs <;> simp <;> linarith

theorem applyXHeightRule_elegance_ge (vm : VerticalMetrics) (p : Traits) :
    p.elegance ≤ (applyXHeightRule vm p).elegance := by
  unfold applyXHeightRule
  cases hx : vm.x_height_class with
  | none => exact le_rfl
  | some c =>
    simp only []
    split_ifs <;> simp <;> linarith

theorem applyAscDescRule_elegance_ge (vm : VerticalMetrics) (p : Traits) :
    p.elegance ≤ (applyAscDescRule vm p).elegance := by
  unfold applyAscDescRule
  cases ha : vm.ascender_ratio with
  | none => exact le_rfl
  | some a =>
    cases hd : vm.descender_ratio with
    | none => exact le_rfl
    | some d =>
      simp only []
      split_ifs <;> simp <;> linarith

theorem applyWeightRules_formality_keep (wbs : String) (p : Traits)
    (h : wbs = "regular" ∨ wbs = "medium") :
    (applyWeightRules wbs p).formality = p.formality := by
  rcases h with h | h <;> subst h <;> simp [applyWeightRules]

theorem applyWeightRules_elegance_keep (wbs : String) (p : Traits)
    (h : wbs = "regular" ∨ wbs = "medium") :
    (applyWeightRules wbs p).elegance = p.elegance := by
  rcases h with h | h <;> subst h <;> simp [applyWeightRules]

theorem applyStyleRules_serif (p : Traits) :
    applyStyleRules "serif" p =
      { p with
        formality := p.formality + 1
        elegance := p.elegance + 1
        modernity := p.modernity - 1 } := by
  simp [applyStyleRules]

theorem applyContrastRule_high (p : Traits) :
    applyContrastRule "high contrast" p =
      { p with
        elegance := p.elegance + 1
        formality := p.formality + 0.5
        modernity := p.modernity - 0.5 } := by
  simp [applyContrastRule]

theorem use_cases_serif_mem (fi : FontInfo) (p : Traits)
    (hst : fi.style = "serif")
    (hwb : fi.weight.weight_by_stroke = "regular" ∨
      fi.weight.weight_by_stroke = "medium")
    (hf : 1 < p.formality) (he : 1 < p.elegance) :
    "Long-form reading" ∈ (determine_suitable_use_cases fi p).suitable_for ∧
      "Children\x27s content" ∈
        (determine_suitable_use_cases fi p).less_suitable_for := by
  unfold determine_suitable_use_cases
  have h1 : "Long-form reading" ∈
      (if fi.style = "serif" ∧
          (fi.weight.weight_by_stroke = "regular" ∨
            fi.weight.weight_by_stroke = "medium") then
        ["Long-form reading", "Book typography", "News publications"]
      else []) := by
    rw [if_pos ⟨hst, hwb⟩]
    simp
  have h2 : "Children\x27s content" ∈
      (if p.formality > 1 ∧ p.elegance > 1 then
        ["Casual social media posts", "Children\x27s content",
          "Playful advertising"]
      else []) := by
    rw [if_pos ⟨hf, he⟩]
    simp
  constructor <;>
    simp only [List.mem_dedup, List.mem_append, h1, h2, or_true, true_or]

/-- C8 amended: for every feature bundle with style "serif", contrast type
"high contrast" and stroke-weight band "regular" or "medium", the profile
has formality >= 1 and elegance >= 1, its suitable list contains
"Long-form reading" and its less-suitable list contains Children's
content.  (The stroke-band hypothesis replaces the claim's weight-class
700, which does not determine the band; see the counterexample.) -/
theorem serif_high_contrast_profile (fi : FontInfo)
    (hst : fi.style = "serif")
    (hwb : fi.weight.weight_by_stroke = "regular" ∨
      fi.weight.weight_by_stroke = "medium")
    (hct : fi.contrast.contrast_type = "high contrast") :
    1 ≤ (analyze_font_personality fi).traits.formality ∧
      1 ≤ (analyze_font_personality fi).traits.elegance ∧
      "Long-form reading" ∈
        (analyze_font_personality fi).suitable_use_cases.suitable_for ∧
      "Children\x27s content" ∈
        (analyze_font_personality fi).suitable_use_cases.less_suitable_for := by
  set p1 := applyStyleRules fi.style {} with hp1
  set p2 := applyWeightRules fi.weight.weight_by_stroke p1 with hp2
  set p3 := applyWidthRules fi.width.description p2 with hp3
  set p4 := applyShapeRules fi.shape.type p3 with hp4
  set p5 := applySpacingRules fi.spacing.spacing_type p4 with hp5
  set p6 := applyXHeightRule fi.vertical_metrics p5 with hp6
  set p7 := applyAscDescRule fi.vertical_metrics p6 with hp7
  set p8 := applyContrastRule fi.contrast.contrast_type p7 with hp8
  have htr : (analyze_font_personality fi).traits = clampTraits p8 := rfl
  have hf1 : p1.formality = 1 := by
    rw [hp1, hst, applyStyleRules_serif]
    norm_num
  have he1 : p1.elegance = 1 := by
    rw [hp1, hst, applyStyleRules_serif]
    norm_num
  have hf2 : p2.formality = 1 := by
    rw [hp2, applyWeightRules_formality_keep _ _ hwb, hf1]
  have he2 : p2.elegance = 1 := by
    rw [hp2, applyWeightRules_elegance_keep _ _ hwb, he1]
  have hf3 : p3.formality = 1 := by
    rw [hp3, applyWidthRules_formality, hf2]
  have he3 : (1 : ℚ)/2 ≤ p3.elegance := by
    rw [hp3]
    have h := applyWidthRules_elegance_ge fi.width.description p2
    rw [he2] at h
    linarith
  have hf4 : 1 ≤ p4.formality := by
    rw [hp4]
    have h := applyShapeRules_formality_ge fi.shape.type p3
    rw [hf3] at h
    exact h
  have he4 : (1 : ℚ)/2 ≤ p4.elegance := by
    rw [hp4, applyShapeRules_elegance]
    exact he3
  have hf5 : 1 ≤ p5.formality := by
    rw [hp5, applySpacingRules_formality]
    exact hf4
  have he5 : (1 : ℚ)/2 ≤ p5.elegance :=
    le_trans he4 (by rw [hp5]; exact applySpacingRules_elegance_ge _ _)
  have hf6 : 1 ≤ p6.formality :=
    le_trans hf5 (by rw [hp6]; exact applyXHeightRule_formality_ge _ _)
  have he6 : (1 : ℚ)/2 ≤ p6.elegance :=
    le_trans he5 (by rw [hp6]; exact applyXHeightRule_elegance_ge _ _)
  have hf7 : 1 ≤ p7.formality :=
    le_trans hf6 (by rw [hp7]; exact applyAscDescRule_formality_ge _ _)
  have he7 : (1 : ℚ)/2 ≤ p7.elegance :=
    le_trans he6 (by rw [hp7]; exact applyAscDescRule_elegance_ge _ _)
  have hf8 : (3 : ℚ)/2 ≤ p8.formality := by
    rw [hp8, hct, applyContrastRule_high]
    simp only
    norm_num
    linarith
  have he8 : (3 : ℚ)/2 ≤ p8.elegance := by
    rw [hp8, hct, applyContrastRule_high]
    simp only
    linarith
  have hftrait : (analyze_font_personality fi).traits.formality =
      clampTrait p8.formality := by rw [htr]; rfl
  have hetrait : (analyze_font_personality fi).traits.elegance =
      clampTrait p8.elegance := by rw [htr]; rfl
  have hfc : (3 : ℚ)/2 ≤ clampTrait p8.formality :=
    le_clampTrait_of_le hf8 (by norm_num)
  have hec : (3 : ℚ)/2 ≤ clampTrait p8.elegance :=
    le_clampTrait_of_le he8 (by norm_num)
  have hsu : (analyze_font_personality fi).suitable_use_cases =
      determine_suitable_use_cases fi
        ((analyze_font_personality fi).traits) := rfl
  have hmem := use_cases_serif_mem fi
    ((analyze_font_personality fi).traits) hst hwb
    (by rw [hftrait]; linarith) (by rw [hetrait]; linarith)
  refine ⟨by rw [hftrait]; linarith, by rw [hetrait]; linarith, ?_, ?_⟩
  · rw [hsu]
    exact hmem.1
  · rw [hsu]
    exact hmem.2

/-- Witness for C8 amended at the concrete bundle with band "regular". -/
theorem serif_high_contrast_profile_witness :
    ((c8FontInfo "regular").style = "serif" ∧
        ((c8FontInfo "regular").weight.weight_by_stroke = "regular" ∨
          (c8FontInfo "regular").weight.weight_by_stroke = "medium") ∧
        (c8FontInfo "regular").contrast.contrast_type = "high contrast") ∧
      (1 ≤ (analyze_font_personality (c8FontInfo "regular")).traits.formality ∧
        1 ≤ (analyze_font_personality (c8FontInfo "regular")).traits.elegance ∧
        "Long-form reading" ∈
          (analyze_font_personality
              (c8FontInfo "regular")).suitable_use_cases.suitable_for ∧
        "Children\x27s content" ∈
          (analyze_font_personality
              (c8FontInfo "regular")).suitable_use_cases.less_suitable_for) :=
  ⟨⟨rfl, Or.inl rfl, rfl⟩,
    serif_high_contrast_profile (c8FontInfo "regular") rfl (Or.inl rfl) rfl⟩

theorem c8_stageA :
    applyStyleRules "serif" ({} : Traits) =
      ({ formality := 1, elegance := 1, modernity := -1 } : Traits) := by
  simp [applyStyleRules]

theorem c8_stageB :
    applyWeightRules "bold"
        ({ formality := 1, elegance := 1, modernity := -1 } : Traits) =
      ({ formality := 1
         strength := 1
         elegance := 1
         modernity := -1 } : Traits) := by
  simp [applyWeightRules]

theorem c8_stageC :
    applyWidthRules "Condensed"
        ({ formality := 1
           strength := 1
           elegance := 1
           modernity := -1 } : Traits) =
      ({ formality := 1
         strength := 1
         elegance := 1/2
         modernity := -(1/2) } : Traits) := by
  have hcond : strContains (strToLower "Condensed") "condensed" = true := by
    decide
  simp [applyWidthRules, hcond]
  norm_num

theorem c8_stageD :
    applyShapeRules "unknown"
        ({ formality := 1
           strength := 1
           elegance := 1/2
           modernity := -(1/2) } : Traits) =
      ({ formality := 1
         strength := 1
         elegance := 1/2
         modernity := -(1/2) } : Traits) := by
  have hcu : strContains "unknown" "curvy" = false := by decide
  have han : strContains "unknown" "angular" = false := by decide
  simp [applyShapeRules, hcu, han]

theorem c8_stageH :
    applyContrastRule "high contrast"
        ({ formality := 1
           strength := 1
           elegance := 1/2
           modernity := -(1/2) } : Traits) =
      ({ formality := 3/2
         strength := 1
         elegance := 3/2
         modernity := -1 } : Traits) := by
  simp [applyContrastRule]
  norm_num

theorem c8_clamped :
    clampTraits
        ({ formality := 3/2
           strength := 1
           elegance := 3/2
           modernity := -1 } : Traits) =
      ({ formality := 3/2
         strength := 1
         elegance := 3/2
         modernity := -1 } : Traits) := by
  norm_num [clampTraits, clampTrait]

theorem c8_bold_traits :
    (analyze_font_personality (c8FontInfo "bold")).traits =
      ({ formality := 3/2
         strength := 1
         elegance := 3/2
         modernity := -1 } : Traits) := by
  show clampTraits
      (applyContrastRule "high contrast"
        (applyAscDescRule {}
          (applyXHeightRule {}
            (applySpacingRules "unknown"
              (applyShapeRules "unknown"
                (applyWidthRules "Condensed"
                  (applyWeightRules "bold"
                    (applyStyleRules "serif" {})))))))) = _
  rw [c8_stageA, c8_stageB, c8_stageC, c8_stageD]
  rw [show applySpacingRules "unknown"
      ({ formality := 1
         strength := 1
         elegance := 1/2
         modernity := -(1/2) } : Traits) =
      ({ formality := 1
         strength := 1
         elegance := 1/2
         modernity := -(1/2) } : Traits) by simp [applySpacingRules]]
  rw [show applyXHeightRule {}
      ({ formality := 1
         strength := 1
         elegance := 1/2
         modernity := -(1/2) } : Traits) =
      ({ formality := 1
         strength := 1
         elegance := 1/2
         modernity := -(1/2) } : Traits) from rfl]
  rw [show applyAscDescRule {}
      ({ formality := 1
         strength := 1
         elegance := 1/2
         modernity := -(1/2) } : Traits) =
      ({ formality := 1
         strength := 1
         elegance := 1/2
         modernity := -(1/2) } : Traits) from rfl]
  rw [c8_stageH, c8_clamped]

theorem c8_bold_use_cases :
    determine_suitable_use_cases (c8FontInfo "bold")
        ({ formality := 3/2
           strength := 1
           elegance := 3/2
           modernity := -1 } : Traits) =
      { suitable_for := ["Formal invitations", "Luxury branding",
          "High-end restaurant menus", "Wedding stationery"],
        less_suitable_for := ["Casual social media posts",
          "Children\x27s content", "Playful advertising"] } := by
  have hsty : (c8FontInfo "bold").style = "serif" := rfl
  have hwbs : (c8FontInfo "bold").weight.weight_by_stroke = "bold" := rfl
  simp only [determine_suitable_use_cases, hsty, hwbs]
  norm_num
  simp [List.dedup_cons_of_not_mem, List.dedup_nil]

/-- C8 counterexample: with the stroke-weight band "bold" (a typical band
for weight class 700), formality and elegance are still 1.5, but the
suitable list has no long-form/publication entry at all — the serif
long-form rule requires the band "regular" or "medium". -/
theorem c8_bold_counterexample :
    (analyze_font_personality (c8FontInfo "bold")).traits.formality = 3/2 ∧
      (analyze_font_personality (c8FontInfo "bold")).traits.elegance = 3/2 ∧
      (analyze_font_personality
          (c8FontInfo "bold")).suitable_use_cases.suitable_for =
        ["Formal invitations", "Luxury branding",
          "High-end restaurant menus", "Wedding stationery"] ∧
      "Long-form reading" ∉
        (analyze_font_personality
            (c8FontInfo "bold")).suitable_use_cases.suitable_for ∧
      "Book typography" ∉
        (analyze_font_personality
            (c8FontInfo "bold")).suitable_use_cases.suitable_for ∧
      "News publications" ∉
        (analyze_font_personality
            (c8FontInfo "bold")).suitable_use_cases.suitable_for ∧
      "Children\x27s content" ∈
        (analyze_font_personality
            (c8FontInfo "bold")).suitable_use_cases.less_suitable_for := by
  have hsu : (analyze_font_personality
      (c8FontInfo "bold")).suitable_use_cases =
      determine_suitable_use_cases (c8FontInfo "bold")
        ((analyze_font_personality (c8FontInfo "bold")).traits) := rfl
  have hlists := c8_bold_use_cases
  refine ⟨?_, ?_, ?_, ?_, ?_, ?_, ?_⟩
  · rw [c8_bold_traits]
  · rw [c8_bold_traits]
  · rw [hsu, c8_bold_traits, hlists]
  · rw [hsu, c8_bold_traits, hlists]
    simp
  · rw [hsu, c8_bold_traits, hlists]
    simp
  · rw [hsu, c8_bold_traits, hlists]
    simp
  · rw [hsu, c8_bold_traits, hlists]
    simp

end Fontfeel
